import Mathlib

/-!
# Boids simulation driver: shallow embedding of `main.cpp` and `gui.cpp`

The two translation units under verification are the simulation driver
(`main.cpp`: `uniform`, `initialize_birds`, and the body of the SFML loop in
`main`) and the control panel (`gui.cpp`: `update_boid_number`,
`update_predator_number`, `update_from_panel`).

Conventions of the embedding.

* A C++ `double`/`float` value is an exact rational (`ℚ`); every operation whose
  body lives in a header that is not part of these two files (`Point`, `Boid`,
  `Predator`, `Quad_tree`, `vertex_update`, the random engine) is a field of
  `Externals`, so that the theorems about the driver hold for every
  implementation of them.
* A C++ `int` is an `Int`.
* A pointer into `boid_vector` is the index of the element it points to; a
  pointer is dereferenced against the vector as it is at the time of the read.
* Every call that the loop body makes on the tree, an agent or a vertex array
  is performed through `invoke`, which runs the call and records it with its
  arguments: the trace of a tick is the sequence of the calls it performs.
* The statistics label, the polling of window events and the drawing calls of
  the SFML loop write no simulation state and are left out; what the event
  polling delivers (`is_mouse_pressed`, the mouse position) is an input of the
  tick.
-/

namespace boids

/-! ## Data model -/

/-- The class `boids::Point`: a pair of coordinates, read with `x()` and `y()`. -/
structure Point where
  x : ℚ
  y : ℚ
deriving DecidableEq

/-- The classes `boids::Boid` and `boids::Predator`: both are built from a
position and a velocity (`T{boid_position, boid_velocity}` in
`initialize_birds`) and read with `pos()` and `vel()`. The template
`initialize_birds` and the pointer pass of `main` treat the two alike. -/
structure Bird where
  pos : Point
  vel : Point
deriving DecidableEq

/-- A `boids::Boid`. -/
abbrev Boid := Bird

/-- A `boids::Predator`. -/
abbrev Predator := Bird

/-- The class `boids::Rectangle{centre x, centre y, half width, half height}`. -/
structure Rectangle where
  cx : ℚ
  cy : ℚ
  hw : ℚ
  hh : ℚ
deriving DecidableEq

/-- The two `sf::Color` constants that `main` hands to `initialize_birds`. -/
inductive Color where
  | boid_color
  | predator_color
deriving DecidableEq

/-- An `sf::Vertex`: a position (`sf::Vector2f`) and a colour. -/
structure Vertex where
  position : Point
  color : Color
deriving DecidableEq

/-- The values of `constants.hpp` that `main.cpp` and `gui.cpp` read. The header
is not part of the two files, so the values are parameters. -/
structure Constants where
  window_width : ℚ
  window_height : ℚ
  controls_width : ℚ
  margin_size : ℚ
  min_rand_velocity : ℚ
  max_rand_velocity : ℚ
  cell_capacity : Int
  repel_range : ℚ
  repel_coefficent : ℚ
  delta_t_predator : ℚ
  delta_t_boid : ℚ
  predator_size : ℚ
  boid_size : ℚ
  predator_avoidance_coeff : ℚ
  prey_to_predator_coeff : ℚ
  max_cohesion_strength : ℚ
  max_alignment_strength : ℚ
  max_separation_strength : ℚ
  max_range : ℚ
  max_separation_range : ℚ
  max_prey_range : ℚ

/-- The part of `boids::Panel` that the update functions of `gui.cpp` read and
write: the value of each `tgui::Slider` (what `getValue()` returns) and the text
of the two labels that show the population sizes. A `tgui::Slider` keeps its
value on a multiple of its step, which is 1 unless `setStep` is called, and
`gui.cpp` never calls it: the values that the sliders of the program deliver are
whole. -/
structure Panel where
  cohesion_strength_slider : ℚ
  alignment_strength_slider : ℚ
  separation_strength_slider : ℚ
  boid_number_slider : ℚ
  range_slider : ℚ
  separation_range_slider : ℚ
  predator_number_slider : ℚ
  prey_range_slider : ℚ
  boid_number_text : String
  predator_number_text : String
deriving DecidableEq

/-! ## `gui.cpp` -/

/-- The conversion `static_cast<int>(v)` of a floating value: truncation toward
zero. (The conversion is undefined in C++ when the truncated value is not
representable in an `int`; the sliders are bounded by `max_boid_number` and
`max_predator_number`.) -/
def static_cast_int (v : ℚ) : Int :=
  if 0 ≤ v then ⌊v⌋ else ⌈v⌉

/-- The function `update_boid_number` of `gui.cpp`: the returned triple is the
`bool` result, the new value of the reference parameter `boid_number` and the
panel with its label updated. -/
def update_boid_number (boid_number : Int) (panel : Panel) : Bool × Int × Panel :=
  if static_cast_int panel.boid_number_slider ≠ boid_number then
    let boid_number1 := static_cast_int panel.boid_number_slider
    (true, boid_number1,
      { panel with boid_number_text := "Number of Boids: " ++ toString boid_number1 })
  else
    (false, boid_number, panel)

/-- The function `update_predator_number` of `gui.cpp`. The guard compares the
`float` slider value with the `int`, which the usual arithmetic conversions turn
into a `float` first: `int_to_float` is that conversion (it rounds an `int` that
single precision does not hold). The guard has not the cast that
`update_boid_number` applies. -/
def update_predator_number (int_to_float : Int → ℚ) (predator_number : Int) (panel : Panel) :
    Bool × Int × Panel :=
  if panel.predator_number_slider ≠ int_to_float predator_number then
    let predator_number1 := static_cast_int panel.predator_number_slider
    (true, predator_number1,
      { panel with
        predator_number_text := "Number of Predators: " ++ toString predator_number1 })
  else
    (false, predator_number, panel)

/-- The six `double&` outputs of `update_from_panel`. -/
structure Params where
  cohesion_coefficent : ℚ
  alignment_coefficent : ℚ
  separation_coefficent : ℚ
  range : ℚ
  separation_range : ℚ
  prey_range : ℚ
deriving DecidableEq

/-- The function `update_from_panel` of `gui.cpp` (the fps label, which has no
effect on the simulation, is left out). The literal `0.1` is the rational
`1/10`. -/
def update_from_panel (C : Constants) (panel : Panel) : Params :=
  { cohesion_coefficent := C.max_cohesion_strength * (1 / 10) * panel.cohesion_strength_slider
    alignment_coefficent := C.max_alignment_strength * (1 / 10) * panel.alignment_strength_slider
    separation_coefficent :=
      C.max_separation_strength * (1 / 10) * panel.separation_strength_slider
    range := C.max_range * (1 / 10) * panel.range_slider
    separation_range := C.max_separation_range * (1 / 10) * panel.separation_range_slider
    prey_range := C.max_prey_range * (1 / 10) * panel.prey_range_slider }

/-- A panel whose boid-number slider shows `v`. -/
def Panel.with_boid_slider (panel : Panel) (v : ℚ) : Panel :=
  { panel with boid_number_slider := v }

/-- A panel whose predator-number slider shows `v`. -/
def Panel.with_predator_slider (panel : Panel) (v : ℚ) : Panel :=
  { panel with predator_number_slider := v }

/-- A panel with every slider at zero and empty labels. -/
def blank_panel : Panel :=
  { cohesion_strength_slider := 0
    alignment_strength_slider := 0
    separation_strength_slider := 0
    boid_number_slider := 0
    range_slider := 0
    separation_range_slider := 0
    predator_number_slider := 0
    prey_range_slider := 0
    boid_number_text := ""
    predator_number_text := "" }

/-- The initial value `int boid_number{-1}` of `main`. -/
def initial_boid_number : Int := -1

/-- The initial value `int predator_number{}` of `main`. -/
def initial_predator_number : Int := 0

/-! ## Code outside the two translation units -/

/-- The operations that `main.cpp` calls and whose bodies live in headers that
are not part of the two files (`point.hpp`, `boid.hpp`, `quadtree.hpp`,
`sfml.hpp`, `<random>`). Each is a parameter of the driver.

* `Tree` is the state of a `boids::Quad_tree`, which stores pointers to the
  boids handed to `insert`; the pointers are indices into `boid_vector`, and
  `tree_insert`/`tree_query` receive the vector they point into.
* `Gen` is the state of the `std::mt19937` engine. -/
structure Externals where
  Tree : Type
  Gen : Type
  /-- The call `std::uniform_real_distribution<double>{a, b}(mt)`. -/
  unif : ℚ → ℚ → Gen → ℚ × Gen
  /-- The narrowing conversion of a `double` to the `float` of `sf::Vector2f`. -/
  to_float : ℚ → ℚ
  /-- The conversion of an `int` to `float` (usual arithmetic conversions). -/
  int_to_float : Int → ℚ
  /-- The operator `Point::operator-`. -/
  point_sub : Point → Point → Point
  /-- The method `Point::distance()`. -/
  distance : Point → ℚ
  /-- The method `Boid::update(delta_t, in_range, separation_range,
  separation_coefficent, cohesion_coefficent, alignment_coefficent)`; the list is
  the boids that the pointers of `in_range` point to. -/
  boid_update : Boid → ℚ → List Boid → ℚ → ℚ → ℚ → ℚ → Boid
  /-- The method `Boid::repel(source, range, coefficient)`. -/
  boid_repel : Boid → Point → ℚ → ℚ → Boid
  /-- The method `Predator::update(delta_t, predator_range, boid_vector)`. -/
  predator_update : Predator → ℚ → ℚ → List Boid → Predator
  /-- The method `Predator::repel(source, range, coefficient)`. -/
  predator_repel : Predator → Point → ℚ → ℚ → Predator
  /-- The constructor `Quad_tree{capacity, boundary}`. -/
  tree_new : Int → Rectangle → Tree
  /-- The call `tree.insert(boid_vector[i])`. -/
  tree_insert : Tree → List Boid → Nat → Tree
  /-- The call `tree.query(range, boid_vector[i], in_range)`: the pointers it
  appends to the (empty) vector `in_range`. -/
  tree_query : Tree → ℚ → List Boid → Nat → List Nat
  /-- The call `vertex_update(vertices, bird, i, size)`. -/
  vertex_update : List Vertex → Bird → Nat → ℚ → List Vertex


/-! ## `main.cpp`: population set-up -/

/-- The function `uniform(a, b, mt)` of `main.cpp`. -/
def uniform (E : Externals) (a b : ℚ) (mt : E.Gen) : ℚ × E.Gen :=
  E.unif a b mt

/-- The three vertices `v1`, `v2`, `v3` that `initialize_birds` appends for a
bird at `boid_position`. -/
def bird_vertex (E : Externals) (boid_position : Point) (bird_color : Color) : Vertex :=
  { position := ⟨E.to_float boid_position.x, E.to_float boid_position.y⟩
    color := bird_color }

/-- The loop `for (int i = 0; i < swarm_n; ++i)` of `initialize_birds`; the
first argument bounds the number of iterations. -/
def initialize_birds_loop (E : Externals) (C : Constants) (swarm_n : ℚ) (bird_color : Color) :
    Nat → Nat → List Bird × List Vertex × E.Gen → List Bird × List Vertex × E.Gen
  | 0, _, st => st
  | fuel + 1, i, (bird_vec, vertices, mt) =>
    if (i : ℚ) < swarm_n then
      let px := uniform E (C.margin_size + C.controls_width) (C.window_width - C.margin_size) mt
      let py := uniform E C.margin_size (C.window_height - C.margin_size) px.2
      let boid_position : Point := ⟨px.1, py.1⟩
      let vx := uniform E C.min_rand_velocity C.max_rand_velocity py.2
      let vy := uniform E C.min_rand_velocity C.max_rand_velocity vx.2
      let boid_velocity : Point := ⟨vx.1, vy.1⟩
      initialize_birds_loop E C swarm_n bird_color fuel (i + 1)
        (bird_vec ++ [⟨boid_position, boid_velocity⟩],
          vertices ++ [bird_vertex E boid_position bird_color,
            bird_vertex E boid_position bird_color,
            bird_vertex E boid_position bird_color],
          vy.2)
    else
      (bird_vec, vertices, mt)

/-- The template `initialize_birds(bird_vec, vertices, swarm_n, bird_color, mt)`
of `main.cpp`: both containers are cleared, then the loop runs. The loop leaves
after at most `⌈swarm_n⌉` iterations, which is the bound handed to
`initialize_birds_loop`. -/
def initialize_birds (E : Externals) (C : Constants) (_bird_vec : List Bird)
    (_vertices : List Vertex) (swarm_n : ℚ) (bird_color : Color) (mt : E.Gen) :
    List Bird × List Vertex × E.Gen :=
  initialize_birds_loop E C swarm_n bird_color (Int.toNat ⌈swarm_n⌉) 0 ([], [], mt)

/-- The boundary that `main` gives to the `Quad_tree` of every tick. -/
def root_rectangle (C : Constants) : Rectangle :=
  { cx := (C.window_width + C.controls_width) / 2
    cy := C.window_height / 2
    hw := (C.window_width - C.controls_width) / 2
    hh := C.window_height / 2 }

/-! ## `main.cpp`: the state of the loop and the population refresh -/

/-- The variables of `main` that live across iterations of the SFML loop. -/
structure Sim (E : Externals) where
  boid_vector : List Boid
  predator_vector : List Predator
  boid_vertex : List Vertex
  predator_vertex : List Vertex
  boid_number : Int
  predator_number : Int
  mt : E.Gen
  panel : Panel

/-- What the event loop and `sf::Mouse::getPosition` deliver in one iteration. -/
structure TickInput where
  is_mouse_pressed : Bool
  mouse_position : Point

/-- The state of `main` when the SFML loop is entered. -/
def initial_sim (E : Externals) (mt : E.Gen) (panel : Panel) : Sim E :=
  { boid_vector := []
    predator_vector := []
    boid_vertex := []
    predator_vertex := []
    boid_number := initial_boid_number
    predator_number := initial_predator_number
    mt := mt
    panel := panel }

/-- Lines 183-187 of `main.cpp`: re-create the boids when the slider moved. -/
def refresh_boids (E : Externals) (C : Constants) (s : Sim E) : Sim E :=
  let r := update_boid_number s.boid_number s.panel
  if r.1 then
    let b := initialize_birds E C s.boid_vector s.boid_vertex (r.2.1 : ℚ) Color.boid_color s.mt
    { s with boid_number := r.2.1, panel := r.2.2,
             boid_vector := b.1, boid_vertex := b.2.1, mt := b.2.2 }
  else
    { s with boid_number := r.2.1, panel := r.2.2 }

/-- Lines 189-193 of `main.cpp`: re-create the predators when the slider moved. -/
def refresh_predators (E : Externals) (C : Constants) (s : Sim E) : Sim E :=
  let r := update_predator_number E.int_to_float s.predator_number s.panel
  if r.1 then
    let b := initialize_birds E C s.predator_vector s.predator_vertex (r.2.1 : ℚ)
      Color.predator_color s.mt
    { s with predator_number := r.2.1, panel := r.2.2,
             predator_vector := b.1, predator_vertex := b.2.1, mt := b.2.2 }
  else
    { s with predator_number := r.2.1, panel := r.2.2 }

/-! ## The calls of a tick

Every call that the loop body of `main` makes on the tree, on an agent or on a
vertex array is an `Event`: the call site with the arguments it hands over.
`Event.run` is the call itself, and `invoke` is the only way in which the driver
below performs one: it runs the call and appends it to the trace, so the trace
of a tick is the sequence of the calls it has performed, each with the
arguments it was performed on. -/

/-- A call of the loop body of `main`, by call site, with its arguments. A
method call carries the index `i` and the state `self` of its receiver. -/
inductive Event (E : Externals) where
  /-- Line 198: the constructor `Quad_tree tree{cell_capacity, Rectangle{...}}`. -/
  | tree_new (capacity : Int) (boundary : Rectangle)
  /-- Line 207: `tree.insert(boid)`, for the boid at index `i` of `boid_vector`. -/
  | tree_insert (tree : E.Tree) (boid_vector : List Boid) (i : Nat)
  /-- Line 216: `boid.repel(mouse_position, repel_range, repel_coefficent)`. -/
  | pointer_repel_boid (i : Nat) (self : Boid) (source : Point) (range coeff : ℚ)
  /-- Line 223: `predator.repel(mouse_position, repel_range, repel_coefficent)`. -/
  | pointer_repel_predator (i : Nat) (self : Predator) (source : Point) (range coeff : ℚ)
  /-- Line 230: `predator_vector[i].update(delta_t_predator, predator_range,
  boid_vector)`. -/
  | predator_update (i : Nat) (self : Predator) (delta_t predator_range : ℚ)
      (prey : List Boid)
  /-- Line 232: `vertex_update(predator_vertex, predator_vector[i], i,
  predator_size)`. -/
  | predator_vertex_update (vertices : List Vertex) (predator : Predator) (i : Nat) (size : ℚ)
  /-- Line 241: `tree.query(range, boid_vector[i], in_range)`. -/
  | tree_query (tree : E.Tree) (range : ℚ) (boid_vector : List Boid) (i : Nat)
  /-- Line 243: `boid_vector[i].update(delta_t_boid, in_range, separation_range,
  separation_coefficent, cohesion_coefficent, alignment_coefficent)`; the
  pointers of `in_range` point into `boid_vector`, the vector as it is when the
  call is made. -/
  | boid_update (i : Nat) (self : Boid) (delta_t : ℚ) (in_range : List Nat)
      (boid_vector : List Boid)
      (separation_range separation_coefficent cohesion_coefficent alignment_coefficent : ℚ)
  /-- Line 250: `boid_vector[i].repel(predator.pos(), prey_range,
  predator_avoidance_coeff)`, for the predator at index `p` of `predator_vector`. -/
  | predator_avoid (i : Nat) (self : Boid) (p : Nat) (source : Point) (range coeff : ℚ)
  /-- Line 254: `vertex_update(boid_vertex, boid_vector[i], i, boid_size)`. -/
  | boid_vertex_update (vertices : List Vertex) (boid : Boid) (i : Nat) (size : ℚ)

/-- The boids that `Boid::update` reads through the pointers of `in_range`. -/
def deref (boid_vector : List Boid) (in_range : List Nat) : List Boid :=
  in_range.filterMap (fun j => boid_vector[j]?)

/-- What a call leaves behind: the tree, the new state of the receiver, the
pointers found, or the vertex array. -/
def Event.Result {E : Externals} : Event E → Type
  | Event.tree_new _ _ => E.Tree
  | Event.tree_insert _ _ _ => E.Tree
  | Event.pointer_repel_boid _ _ _ _ _ => Boid
  | Event.pointer_repel_predator _ _ _ _ _ => Predator
  | Event.predator_update _ _ _ _ _ => Predator
  | Event.predator_vertex_update _ _ _ _ => List Vertex
  | Event.tree_query _ _ _ _ => List Nat
  | Event.boid_update _ _ _ _ _ _ _ _ _ => Boid
  | Event.predator_avoid _ _ _ _ _ _ => Boid
  | Event.boid_vertex_update _ _ _ _ => List Vertex

/-- The call itself: the external operation of the call site on the arguments
of the call. -/
def Event.run {E : Externals} : (ev : Event E) → ev.Result
  | Event.tree_new capacity boundary => E.tree_new capacity boundary
  | Event.tree_insert tree boid_vector i => E.tree_insert tree boid_vector i
  | Event.pointer_repel_boid _ self source range coeff => E.boid_repel self source range coeff
  | Event.pointer_repel_predator _ self source range coeff =>
    E.predator_repel self source range coeff
  | Event.predator_update _ self delta_t predator_range prey =>
    E.predator_update self delta_t predator_range prey
  | Event.predator_vertex_update vertices predator i size =>
    E.vertex_update vertices predator i size
  | Event.tree_query tree range boid_vector i => E.tree_query tree range boid_vector i
  | Event.boid_update _ self delta_t in_range boid_vector separation_range
      separation_coefficent cohesion_coefficent alignment_coefficent =>
    E.boid_update self delta_t (deref boid_vector in_range) separation_range
      separation_coefficent cohesion_coefficent alignment_coefficent
  | Event.predator_avoid _ self _ source range coeff => E.boid_repel self source range coeff
  | Event.boid_vertex_update vertices boid i size => E.vertex_update vertices boid i size

/-- A computation of the driver: its value and the calls it has performed, in
order. -/
structure Traced (E : Externals) (α : Type) where
  value : α
  trace : List (Event E)

/-- A computation that performs no call. -/
def Traced.pure {E : Externals} {α : Type} (a : α) : Traced E α :=
  { value := a, trace := [] }

/-- One computation after another: the calls of the first, then the calls of the
second. -/
def Traced.bind {E : Externals} {α β : Type} (x : Traced E α) (f : α → Traced E β) :
    Traced E β :=
  { value := (f x.value).value, trace := x.trace ++ (f x.value).trace }

instance {E : Externals} : Monad (Traced E) where
  pure := Traced.pure
  bind := Traced.bind

/-- Perform a call: run it and record it. -/
def invoke {E : Externals} (ev : Event E) : Traced E ev.Result :=
  { value := ev.run, trace := [ev] }

/-- A loop over the indices of a list, in order, threading the state. -/
def Traced.foldl {E : Externals} {σ : Type} (body : σ → Nat → Traced E σ) :
    List Nat → σ → Traced E σ
  | [], st => Traced.pure st
  | i :: rest, st => Traced.bind (body st i) (fun st1 => Traced.foldl body rest st1)

/-! ## `main.cpp`: one pass of the SFML loop -/

/-- Lines 197-208 of `main.cpp`: a new tree over the root rectangle, then
`tree.insert(boid)` for every boid in vector order. -/
def build_tree (E : Externals) (C : Constants) (boid_vector : List Boid) : Traced E E.Tree := do
  let tree ← invoke (Event.tree_new C.cell_capacity (root_rectangle C))
  Traced.foldl (fun t i => invoke (Event.tree_insert t boid_vector i))
    (List.range boid_vector.length) tree

/-- Lines 214-218 of `main.cpp`: the pointer pass over the boids, the first of
which has index `i`. -/
def pointer_pass_boids (E : Externals) (C : Constants) (mouse_position : Point) :
    Nat → List Boid → Traced E (List Boid)
  | _, [] => pure []
  | i, boid :: rest =>
    if E.distance (E.point_sub boid.pos mouse_position) < C.repel_range then do
      let boid1 ← invoke
        (Event.pointer_repel_boid i boid mouse_position C.repel_range C.repel_coefficent)
      let rest1 ← pointer_pass_boids E C mouse_position (i + 1) rest
      pure (boid1 :: rest1)
    else do
      let rest1 ← pointer_pass_boids E C mouse_position (i + 1) rest
      pure (boid :: rest1)

/-- Lines 220-225 of `main.cpp`: the pointer pass over the predators. -/
def pointer_pass_predators (E : Externals) (C : Constants) (mouse_position : Point) :
    Nat → List Predator → Traced E (List Predator)
  | _, [] => pure []
  | i, predator :: rest =>
    if E.distance (E.point_sub predator.pos mouse_position) < C.repel_range then do
      let predator1 ← invoke
        (Event.pointer_repel_predator i predator mouse_position C.repel_range
          C.repel_coefficent)
      let rest1 ← pointer_pass_predators E C mouse_position (i + 1) rest
      pure (predator1 :: rest1)
    else do
      let rest1 ← pointer_pass_predators E C mouse_position (i + 1) rest
      pure (predator :: rest1)

/-- Lines 210-226 of `main.cpp`: the pointer-repulsion pass. -/
def pointer_pass (E : Externals) (C : Constants) (inp : TickInput)
    (boid_vector : List Boid) (predator_vector : List Predator) :
    Traced E (List Boid × List Predator) :=
  if inp.is_mouse_pressed then do
    let boids ← pointer_pass_boids E C inp.mouse_position 0 boid_vector
    let predators ← pointer_pass_predators E C inp.mouse_position 0 predator_vector
    pure (boids, predators)
  else
    pure (boid_vector, predator_vector)

/-- One iteration of the predator loop (lines 229-234 of `main.cpp`). -/
def predator_step (E : Externals) (C : Constants) (predator_range : ℚ) (boid_vector : List Boid)
    (st : List Predator × List Vertex) (i : Nat) : Traced E (List Predator × List Vertex) :=
  match st.1[i]? with
  | none => pure st
  | some predator => do
    let predator1 ← invoke
      (Event.predator_update i predator C.delta_t_predator predator_range boid_vector)
    let vertices ← invoke (Event.predator_vertex_update st.2 predator1 i C.predator_size)
    pure (st.1.set i predator1, vertices)

/-- The first `k` iterations of the predator loop. -/
def predator_pass_upto (E : Externals) (C : Constants) (predator_range : ℚ)
    (boid_vector : List Boid) (predator_vector : List Predator) (predator_vertex : List Vertex)
    (k : Nat) : Traced E (List Predator × List Vertex) :=
  Traced.foldl (predator_step E C predator_range boid_vector) (List.range k)
    (predator_vector, predator_vertex)

/-- The predator loop `for (int i = 0; i != predator_vector.size(); ++i)`. -/
def predator_pass (E : Externals) (C : Constants) (predator_range : ℚ) (boid_vector : List Boid)
    (predator_vector : List Predator) (predator_vertex : List Vertex) :
    Traced E (List Predator × List Vertex) :=
  predator_pass_upto E C predator_range boid_vector predator_vector predator_vertex
    predator_vector.length

/-- The `for_each` over the predators in the boid loop (lines 248-252), the
first of which has index `p`. -/
def avoid_predators (E : Externals) (C : Constants) (prey_range : ℚ) (i : Nat) :
    Nat → List Predator → Boid → Traced E Boid
  | _, [], boid => pure boid
  | p, predator :: rest, boid => do
    let boid1 ← invoke
      (Event.predator_avoid i boid p predator.pos prey_range C.predator_avoidance_coeff)
    avoid_predators E C prey_range i (p + 1) rest boid1

/-- One iteration of the boid loop (lines 237-256 of `main.cpp`): query, update
in place, repel from every predator, refresh the three vertices. -/
def boid_step (E : Externals) (C : Constants) (P : Params) (tree : E.Tree)
    (predator_vector : List Predator) (st : List Boid × List Vertex) (i : Nat) :
    Traced E (List Boid × List Vertex) :=
  match st.1[i]? with
  | none => pure st
  | some boid => do
    let in_range ← invoke (Event.tree_query tree P.range st.1 i)
    let boid1 ← invoke
      (Event.boid_update i boid C.delta_t_boid in_range st.1 P.separation_range
        P.separation_coefficent P.cohesion_coefficent P.alignment_coefficent)
    let boid2 ← avoid_predators E C P.prey_range i 0 predator_vector boid1
    let vertices ← invoke (Event.boid_vertex_update st.2 boid2 i C.boid_size)
    pure (st.1.set i boid2, vertices)

/-- The first `k` iterations of the boid loop. -/
def boid_pass_upto (E : Externals) (C : Constants) (P : Params) (tree : E.Tree)
    (predator_vector : List Predator) (boid_vector : List Boid) (boid_vertex : List Vertex)
    (k : Nat) : Traced E (List Boid × List Vertex) :=
  Traced.foldl (boid_step E C P tree predator_vector) (List.range k) (boid_vector, boid_vertex)

/-- The boid loop `for (int i = 0; i != boid_vector.size(); ++i)`. -/
def boid_pass (E : Externals) (C : Constants) (P : Params) (tree : E.Tree)
    (predator_vector : List Predator) (boid_vector : List Boid) (boid_vertex : List Vertex) :
    Traced E (List Boid × List Vertex) :=
  boid_pass_upto E C P tree predator_vector boid_vector boid_vertex boid_vector.length

/-- The state after the two population refreshes of a tick (lines 183-193). -/
def populations (E : Externals) (C : Constants) (s : Sim E) : Sim E :=
  refresh_predators E C (refresh_boids E C s)

/-- The boid vector when the boid loop of the tick starts: after the pointer
pass, before any `Boid::update` of the tick. -/
def boids_before_updates (E : Externals) (C : Constants) (inp : TickInput) (s : Sim E) :
    List Boid :=
  (pointer_pass E C inp (populations E C s).boid_vector
    (populations E C s).predator_vector).value.1

/-- The predator vector after the pointer pass of the tick. -/
def predators_before_updates (E : Externals) (C : Constants) (inp : TickInput) (s : Sim E) :
    List Predator :=
  (pointer_pass E C inp (populations E C s).boid_vector
    (populations E C s).predator_vector).value.2

/-- Lines 176-256 of `main.cpp`: one tick of the simulation, from the panel
read-out to the last boid update; its value is the state of `main` after the
tick, its trace the calls of the tick. -/
def tick (E : Externals) (C : Constants) (inp : TickInput) (s : Sim E) : Traced E (Sim E) :=
  let P := update_from_panel C s.panel
  let predator_range := C.prey_to_predator_coeff * P.prey_range
  let s1 := populations E C s
  do
    let tree ← build_tree E C s1.boid_vector
    let pointer ← pointer_pass E C inp s1.boid_vector s1.predator_vector
    let predators ← predator_pass E C predator_range pointer.1 pointer.2 s1.predator_vertex
    let boids ← boid_pass E C P tree predators.1 pointer.1 s1.boid_vertex
    pure { s1 with boid_vector := boids.1, boid_vertex := boids.2,
                   predator_vector := predators.1, predator_vertex := predators.2 }

/-! ## A reference implementation of the external operations

The bodies of `Point`, `Boid`, `Predator` and `Quad_tree` are not part of the two
files; the definitions below follow the specification (sections 3, 4 and 8) and
serve to run the driver on concrete inputs. -/

/-- Modelled from the spec: `Point::operator+` (point.hpp is absent), the
component-wise sum. -/
def Point.add (p q : Point) : Point := ⟨p.x + q.x, p.y + q.y⟩

/-- Modelled from the spec: `Point::operator-` (point.hpp is absent), the
component-wise difference. -/
def Point.sub (p q : Point) : Point := ⟨p.x - q.x, p.y - q.y⟩

/-- Modelled from the spec: the scalar product of `Point` (point.hpp is absent). -/
def Point.scale (k : ℚ) (p : Point) : Point := ⟨k * p.x, k * p.y⟩

/-- The integer square root, bit by bit from bit `b - 1` down: the largest `r`
(extending the bits already fixed) with `r * r ≤ n`. -/
def isqrt_bits (n : Nat) : Nat → Nat → Nat
  | 0, r => r
  | b + 1, r =>
    if (r + 2 ^ b) * (r + 2 ^ b) ≤ n then isqrt_bits n b (r + 2 ^ b) else isqrt_bits n b r

/-- The number of binary digits of `n`; the first argument bounds the number of
halvings and `n` itself is enough. -/
def bit_length : Nat → Nat → Nat
  | 0, _ => 0
  | fuel + 1, n => if n = 0 then 0 else bit_length fuel (n / 2) + 1

/-- The integer square root of `n`, rounded down. -/
def isqrt (n : Nat) : Nat := isqrt_bits n (bit_length n n) 0

/-- The square root of a non-negative rational `a / b`, rounded down to a
multiple of `1 / (b * 2 ^ 26)`; it is exact on squares of rationals. -/
def rat_sqrt (q : ℚ) : ℚ :=
  mkRat (isqrt (q.num.toNat * q.den * 4 ^ 26)) (q.den * 2 ^ 26)

/-- Modelled from the spec: `Point::distance()` (point.hpp is absent), the
Euclidean norm, with the square root of `rat_sqrt`. -/
def Point.norm (p : Point) : ℚ := rat_sqrt (p.x * p.x + p.y * p.y)

/-- Modelled from the spec: the test "strictly closer than `r`" of sections 4.1
to 4.3, that is `p.distance() < r` for the difference `p` of two positions. It is
decided on the squares, without a square root; no point is within a range that
is not positive. -/
def Point.within (p : Point) (r : ℚ) : Bool :=
  decide (0 < r ∧ p.x * p.x + p.y * p.y < r * r)

/-- Modelled from the spec: the arithmetic mean of a list of points (section 4.2,
cohesion and alignment), zero for the empty list. -/
def mean_point (ps : List Point) : Point :=
  if ps = [] then ⟨0, 0⟩
  else Point.scale (1 / (ps.length : ℚ)) (ps.foldl Point.add ⟨0, 0⟩)

/-- Modelled from the spec: `Boid::update` (boid.hpp is absent), section 4.2:
separation from the neighbours strictly closer than `separation_range`, cohesion
toward the mean position and alignment toward the mean velocity of all
neighbours, then `velocity += delta` and `position += velocity * delta_t`. -/
def spec_boid_update (self : Boid) (delta_t : ℚ) (neighbors : List Boid)
    (separation_range separation_coeff cohesion_coeff alignment_coeff : ℚ) : Boid :=
  let close := neighbors.filter (fun n => (self.pos.sub n.pos).within separation_range)
  let separation :=
    Point.scale separation_coeff (close.foldl (fun acc n => acc.add (self.pos.sub n.pos)) ⟨0, 0⟩)
  let cohesion :=
    if neighbors = [] then (⟨0, 0⟩ : Point)
    else Point.scale cohesion_coeff ((mean_point (neighbors.map Bird.pos)).sub self.pos)
  let alignment :=
    if neighbors = [] then (⟨0, 0⟩ : Point)
    else Point.scale alignment_coeff ((mean_point (neighbors.map Bird.vel)).sub self.vel)
  let velocity := self.vel.add (separation.add (cohesion.add alignment))
  { pos := self.pos.add (Point.scale delta_t velocity), vel := velocity }

/-- Modelled from the spec: `Boid::repel` and `Predator::repel` (boid.hpp is
absent), section 4.2: within `repel_range` of the source the velocity receives
`repel_coeff` along the normalised direction away from the source; nothing
happens when the agent sits on the source. -/
def spec_repel (self : Bird) (source : Point) (repel_range repel_coeff : ℚ) : Bird :=
  let away := self.pos.sub source
  if away.within repel_range then
    if away.norm = 0 then self
    else { self with vel := self.vel.add (Point.scale (repel_coeff / away.norm) away) }
  else self

/-- Modelled from the spec: `Predator::update` (boid.hpp is absent), section 4.3:
steer toward the mean position of the prey within `predator_range`, scaled by
the pursuit coefficient, then integrate; with no prey in range the predator
coasts. -/
def spec_predator_update (pursuit_coeff : ℚ) (self : Predator) (delta_t predator_range : ℚ)
    (prey : List Boid) : Predator :=
  let near := prey.filter (fun b => (b.pos.sub self.pos).within predator_range)
  let steer :=
    if near = [] then (⟨0, 0⟩ : Point)
    else Point.scale pursuit_coeff ((mean_point (near.map Bird.pos)).sub self.pos)
  let velocity := self.vel.add steer
  { pos := self.pos.add (Point.scale delta_t velocity), vel := velocity }

/-- Modelled from the spec: the test "contains point" of `Rectangle`
(quadtree.hpp is absent). -/
def Rectangle.contains (r : Rectangle) (p : Point) : Bool :=
  decide (r.cx - r.hw ≤ p.x ∧ p.x ≤ r.cx + r.hw ∧ r.cy - r.hh ≤ p.y ∧ p.y ≤ r.cy + r.hh)

/-- Modelled from the spec: the content of a `Quad_tree` (quadtree.hpp is
absent) as its contract sees it (section 4.1 and "query completeness" of
section 8): the capacity, the region and the pointers it holds, in insertion
order. The cell structure, which the contract makes unobservable, is left out. -/
structure SpecTree where
  capacity : Int
  region : Rectangle
  held : List Nat
deriving DecidableEq

/-- Modelled from the spec: `Quad_tree::insert` (quadtree.hpp is absent): a
silent no-op when the position lies outside the region, otherwise the agent is
indexed. -/
def SpecTree.insert (t : SpecTree) (boid_vector : List Boid) (i : Nat) : SpecTree :=
  match boid_vector[i]? with
  | none => t
  | some b => if t.region.contains b.pos then { t with held := t.held ++ [i] } else t

/-- Modelled from the spec: `Quad_tree::query` (quadtree.hpp is absent): every
indexed agent within `range` of the origin, the origin itself excluded. -/
def SpecTree.query (t : SpecTree) (range : ℚ) (boid_vector : List Boid) (origin : Nat) :
    List Nat :=
  match boid_vector[origin]? with
  | none => []
  | some o =>
    t.held.filter (fun j =>
      match boid_vector[j]? with
      | none => false
      | some b => decide (j ≠ origin) && (b.pos.sub o.pos).within range)

/-- Modelled from the spec: `vertex_update` (sfml.hpp is absent) is vertex-buffer
bookkeeping for drawing and does not affect the simulation state (section 1); in
the model the three vertices of bird `i` move to the position of the bird. -/
def spec_vertex_update (vertices : List Vertex) (bird : Bird) (i : Nat) (_size : ℚ) :
    List Vertex :=
  let move := fun (vs : List Vertex) (k : Nat) =>
    match vs[k]? with
    | none => vs
    | some v => vs.set k { v with position := bird.pos }
  move (move (move vertices (3 * i)) (3 * i + 1)) (3 * i + 2)

/-- A stand-in for `std::uniform_real_distribution<double>{a, b}` over
`std::mt19937`: a linear congruential step, scaled into `[a, b]`. -/
def spec_unif (a b : ℚ) (g : Nat) : ℚ × Nat :=
  let g1 := (1103515245 * g + 12345) % 2147483648
  (a + (b - a) * ((g1 : ℚ) / 2147483648), g1)

/-- The reference implementation of the external operations, for a given
pursuit coefficient of the predators. -/
def spec_externals (pursuit_coeff : ℚ) : Externals :=
  { Tree := SpecTree
    Gen := Nat
    unif := spec_unif
    to_float := fun v => v
    int_to_float := fun n => (n : ℚ)
    point_sub := Point.sub
    distance := Point.norm
    boid_update := spec_boid_update
    boid_repel := spec_repel
    predator_update := spec_predator_update pursuit_coeff
    predator_repel := spec_repel
    tree_new := fun capacity region => { capacity := capacity, region := region, held := [] }
    tree_insert := SpecTree.insert
    tree_query := SpecTree.query
    vertex_update := spec_vertex_update }

/-- Sample values for `constants.hpp` (the header is absent). -/
def sample_constants : Constants :=
  { window_width := 1200
    window_height := 800
    controls_width := 200
    margin_size := 100
    min_rand_velocity := -1
    max_rand_velocity := 1
    cell_capacity := 4
    repel_range := 100
    repel_coefficent := 1
    delta_t_predator := 1
    delta_t_boid := 1
    predator_size := 10
    boid_size := 5
    predator_avoidance_coeff := 1
    prey_to_predator_coeff := 2
    max_cohesion_strength := 1
    max_alignment_strength := 1
    max_separation_strength := 1
    max_range := 100
    max_separation_range := 10
    max_prey_range := 100 }


/-- The reference implementation with pursuit coefficient 1. -/
def sample_externals : Externals := spec_externals 1

instance : DecidableEq sample_externals.Tree := inferInstanceAs (DecidableEq SpecTree)

/-- A state of `main` between two ticks: two boids 20 apart, the first moving
right at speed 10, one predator at rest, the population sliders in agreement
with the populations, the range slider at 10 (so `range` is 100 with
`sample_constants`) and every other slider at 0. -/
def sample_sim : Sim sample_externals :=
  { boid_vector := [⟨⟨300, 400⟩, ⟨10, 0⟩⟩, ⟨⟨320, 400⟩, ⟨0, 0⟩⟩]
    predator_vector := [⟨⟨400, 400⟩, ⟨0, 0⟩⟩]
    boid_vertex := List.replicate 6 ⟨⟨0, 0⟩, Color.boid_color⟩
    predator_vertex := List.replicate 3 ⟨⟨0, 0⟩, Color.predator_color⟩
    boid_number := 2
    predator_number := 1
    mt := (0 : Nat)
    panel := { blank_panel with
      boid_number_slider := 2, predator_number_slider := 1, range_slider := 10 } }

/-- The state `sample_sim` with the cohesion slider at 10 (so
`cohesion_coefficent` is 1 with `sample_constants`): what a boid reads of its
neighbour decides where it goes. -/
def cohesive_sim : Sim sample_externals :=
  { sample_sim with
    panel := { sample_sim.panel with cohesion_strength_slider := 10 } }

/-- A tick input with the mouse button up. -/
def sample_input_idle : TickInput := ⟨false, ⟨0, 0⟩⟩

/-- The state `cohesive_sim` with the prey-range slider at 10 too (so
`prey_range` is 100 and the pursuit range 200 with `sample_constants`): the
predator pursues both boids and both boids avoid the predator. -/
def hunting_sim : Sim sample_externals :=
  { cohesive_sim with
    panel := { cohesive_sim.panel with prey_range_slider := 10 } }

/-- A tick input with the mouse button down at (240, 400): 60 away from the first
boid of `sample_sim` and 80 from the second, 160 from the predator. -/
def sample_input_pressed : TickInput := ⟨true, ⟨240, 400⟩⟩

/-- A tick input with the mouse button down at (300, 250): 150 away from the
first boid of `sample_sim`, beyond the `repel_range` of 100. -/
def sample_input_far : TickInput := ⟨true, ⟨300, 250⟩⟩

/-! ## Read-outs of a trace and orders of its calls -/

/-- The arguments of a `Boid::update` call (line 243): the index and state of the
receiver, the pointers handed over and the vector they point into. -/
structure BoidUpdate where
  i : Nat
  self : Boid
  in_range : List Nat
  boid_vector : List Boid
deriving DecidableEq

/-- The arguments of a `Boid::update` call, when the call is one. -/
def Event.boid_update_args {E : Externals} : Event E → Option BoidUpdate
  | Event.boid_update i self _ in_range boid_vector _ _ _ _ =>
    some ⟨i, self, in_range, boid_vector⟩
  | _ => none

/-- The tree that a `tree.query` call runs on. -/
def Event.queried_tree {E : Externals} : Event E → Option E.Tree
  | Event.tree_query tree _ _ _ => some tree
  | _ => none

/-- The pursuit range handed to a `Predator::update` call. -/
def Event.pursuit_range {E : Externals} : Event E → Option ℚ
  | Event.predator_update _ _ _ r _ => some r
  | _ => none

/-- The range handed to a boid's `repel` call against a predator (line 250). -/
def Event.avoid_range {E : Externals} : Event E → Option ℚ
  | Event.predator_avoid _ _ _ _ r _ => some r
  | _ => none

/-- The boid vector handed to a `Predator::update` call (line 230). -/
def Event.prey {E : Externals} : Event E → Option (List Boid)
  | Event.predator_update _ _ _ _ prey => some prey
  | _ => none

/-- The `Boid::update` calls of a trace, in order. -/
def boid_updates {E : Externals} (trace : List (Event E)) : List BoidUpdate :=
  trace.filterMap Event.boid_update_args

/-- The trees that the `tree.query` calls of a trace run on, in order. -/
def queried_trees {E : Externals} (trace : List (Event E)) : List E.Tree :=
  trace.filterMap Event.queried_tree

/-- The pursuit ranges handed to the `Predator::update` calls of a trace. -/
def pursuit_ranges {E : Externals} (trace : List (Event E)) : List ℚ :=
  trace.filterMap Event.pursuit_range

/-- The boid vectors handed to the `Predator::update` calls of a trace. -/
def prey_handed {E : Externals} (trace : List (Event E)) : List (List Boid) :=
  trace.filterMap Event.prey

/-- The ranges handed to the boids' `repel` calls against predators in a trace. -/
def avoid_ranges {E : Externals} (trace : List (Event E)) : List ℚ :=
  trace.filterMap Event.avoid_range

/-- A call site of the loop body, with the index of the agent it works on. -/
inductive Call where
  | tree_new
  | tree_insert (i : Nat)
  | pointer_repel_boid (i : Nat)
  | pointer_repel_predator (i : Nat)
  | predator_update (i : Nat)
  | predator_vertex_update (i : Nat)
  | tree_query (i : Nat)
  | boid_update (i : Nat)
  | predator_avoid (i : Nat) (p : Nat)
  | boid_vertex_update (i : Nat)
deriving DecidableEq

/-- The call site of a call. -/
def Event.call {E : Externals} : Event E → Call
  | Event.tree_new _ _ => Call.tree_new
  | Event.tree_insert _ _ i => Call.tree_insert i
  | Event.pointer_repel_boid i _ _ _ _ => Call.pointer_repel_boid i
  | Event.pointer_repel_predator i _ _ _ _ => Call.pointer_repel_predator i
  | Event.predator_update i _ _ _ _ => Call.predator_update i
  | Event.predator_vertex_update _ _ i _ => Call.predator_vertex_update i
  | Event.tree_query _ _ _ i => Call.tree_query i
  | Event.boid_update i _ _ _ _ _ _ _ _ => Call.boid_update i
  | Event.predator_avoid i _ p _ _ _ => Call.predator_avoid i p
  | Event.boid_vertex_update _ _ i _ => Call.boid_vertex_update i

/-- The call sites of iteration `i` of the predator loop. -/
def predator_calls (i : Nat) : List Call :=
  [Call.predator_update i, Call.predator_vertex_update i]

/-- The call sites of iteration `i` of the boid loop when there are `m`
predators: the query, the update, the repulsion from each predator in turn, the
vertex update. -/
def boid_calls (m : Nat) (i : Nat) : List Call :=
  [Call.tree_query i, Call.boid_update i] ++ (List.range m).map (Call.predator_avoid i)
    ++ [Call.boid_vertex_update i]

/-- The call sites of a trace that belong to stage `k` of a stage assignment. -/
def stage_calls {E : Externals} (stage : Event E → Nat) (k : Nat) (trace : List (Event E)) :
    List Call :=
  (trace.filter (fun ev => stage ev = k)).map Event.call

/-- The stage of a call in the order that `main.cpp` runs: index rebuild,
pointer repulsion, predator loop, then the boid loop (query, update, repulsion
from the predators, vertices). -/
def code_stage {E : Externals} : Event E → Nat
  | Event.tree_new _ _ => 0
  | Event.tree_insert _ _ _ => 0
  | Event.pointer_repel_boid _ _ _ _ _ => 1
  | Event.pointer_repel_predator _ _ _ _ _ => 1
  | Event.predator_update _ _ _ _ _ => 2
  | Event.predator_vertex_update _ _ _ _ => 2
  | Event.tree_query _ _ _ _ => 3
  | Event.boid_update _ _ _ _ _ _ _ _ _ => 3
  | Event.predator_avoid _ _ _ _ _ _ => 3
  | Event.boid_vertex_update _ _ _ _ => 3

/-- The stage of a call in the order of section 5 of the specification: index
rebuild, per-boid query and update, predator updates, repulsion pass. The vertex
updates, which the specification leaves to the presentation, go with the update
they follow. -/
def spec_stage {E : Externals} : Event E → Nat
  | Event.tree_new _ _ => 0
  | Event.tree_insert _ _ _ => 0
  | Event.tree_query _ _ _ _ => 1
  | Event.boid_update _ _ _ _ _ _ _ _ _ => 1
  | Event.boid_vertex_update _ _ _ _ => 1
  | Event.predator_update _ _ _ _ _ => 2
  | Event.predator_vertex_update _ _ _ _ => 2
  | Event.pointer_repel_boid _ _ _ _ _ => 3
  | Event.pointer_repel_predator _ _ _ _ _ => 3
  | Event.predator_avoid _ _ _ _ _ _ => 3

/-- A trace runs its stages in order: no call of a later stage comes before a
call of an earlier one. -/
def in_stage_order {E : Externals} (stage : Event E → Nat) (trace : List (Event E)) : Prop :=
  trace.Pairwise (fun a b => stage a ≤ stage b)

instance {E : Externals} (stage : Event E → Nat) (trace : List (Event E)) :
    Decidable (in_stage_order stage trace) :=
  inferInstanceAs (Decidable (trace.Pairwise (fun a b => stage a ≤ stage b)))

/-- The snapshot discipline of section 5 on the boid loop: through each of its
pointers, every `Boid::update` call reads the value that boid had in `before`. -/
def reads_snapshot (before : List Boid) (updates : List BoidUpdate) : Prop :=
  ∀ u ∈ updates, deref u.boid_vector u.in_range = deref before u.in_range

instance (before : List Boid) (updates : List BoidUpdate) :
    Decidable (reads_snapshot before updates) :=
  inferInstanceAs (Decidable (∀ u ∈ updates, deref u.boid_vector u.in_range
    = deref before u.in_range))

/-- The boid vector as iteration `i` of the boid loop of `main.cpp` finds it: the
first `i` boids as the loop leaves them (`after`), the others as they were
before the loop (`before`). -/
def in_place (before after : List Boid) (i : Nat) : List Boid :=
  after.take i ++ before.drop i

/-- One iteration of the boid loop as a function of the boid `b` and of the
vector `heap` it finds: the update on what the query of `tree` returns, then the
repulsion from each predator in turn. -/
def boid_step_result (E : Externals) (C : Constants) (P : Params) (tree : E.Tree)
    (predator_vector : List Predator) (heap : List Boid) (i : Nat) (b : Boid) : Boid :=
  predator_vector.foldl
    (fun x predator => E.boid_repel x predator.pos P.prey_range C.predator_avoidance_coeff)
    (E.boid_update b C.delta_t_boid (deref heap (E.tree_query tree P.range heap i))
      P.separation_range P.separation_coefficent P.cohesion_coefficent P.alignment_coefficent)

/-- The tree after the first `k` boids of `boid_vector` have been inserted, in
vector order, into a new tree over the root rectangle. -/
def tree_of (E : Externals) (C : Constants) (boid_vector : List Boid) (k : Nat) : E.Tree :=
  (List.range k).foldl (fun t i => E.tree_insert t boid_vector i)
    (E.tree_new C.cell_capacity (root_rectangle C))

/-! ## Theorems: the control panel -/

theorem static_cast_int_nonneg (v : ℚ) (h : 0 ≤ v) : 0 ≤ static_cast_int v := by
  unfold static_cast_int
  rw [if_pos h]
  exact Int.floor_nonneg.mpr h

theorem static_cast_int_intCast (n : Int) : static_cast_int (n : ℚ) = n := by
  unfold static_cast_int
  split <;> simp

theorem update_boid_number_fst (b : Int) (panel : Panel) :
    (update_boid_number b panel).1 = decide (static_cast_int panel.boid_number_slider ≠ b) := by
  unfold update_boid_number
  split <;> simp_all

theorem update_boid_number_snd (b : Int) (panel : Panel) :
    (update_boid_number b panel).2.1 = static_cast_int panel.boid_number_slider := by
  unfold update_boid_number
  split <;> simp_all

theorem update_boid_number_slider (b : Int) (panel : Panel) :
    (update_boid_number b panel).2.2.boid_number_slider = panel.boid_number_slider := by
  unfold update_boid_number
  split <;> simp

/-- C6: `update_boid_number` returns true exactly when the truncated slider value
differs from `boid_number`; on return `boid_number` is the truncated value (and is
unchanged when the result is false); a second call with the slider unmoved
returns false; from the initial `boid_number` of -1 the first call returns true
for every slider value `v ≥ 0`. -/
theorem update_boid_number_reports_change (v : ℚ) (b : Int) (panel : Panel) :
    ((update_boid_number b (panel.with_boid_slider v)).1 = true ↔ static_cast_int v ≠ b) ∧
    (update_boid_number b (panel.with_boid_slider v)).2.1 = static_cast_int v ∧
    ((update_boid_number b (panel.with_boid_slider v)).1 = false →
      (update_boid_number b (panel.with_boid_slider v)).2.1 = b) ∧
    (update_boid_number b (panel.with_boid_slider v)).2.2.boid_number_slider = v ∧
    (update_boid_number (update_boid_number b (panel.with_boid_slider v)).2.1
      (update_boid_number b (panel.with_boid_slider v)).2.2).1 = false ∧
    (0 ≤ v → (update_boid_number initial_boid_number (panel.with_boid_slider v)).1 = true) := by
  have hs : (panel.with_boid_slider v).boid_number_slider = v := rfl
  refine ⟨?_, ?_, ?_, ?_, ?_, ?_⟩
  · simp [update_boid_number_fst, hs]
  · simp [update_boid_number_snd, hs]
  · simp only [update_boid_number_fst, update_boid_number_snd, hs]
    intro h
    simpa using h
  · simp [update_boid_number_slider, hs]
  · simp [update_boid_number_fst, update_boid_number_snd, update_boid_number_slider, hs]
  · intro hv
    have hnn := static_cast_int_nonneg v hv
    simp only [update_boid_number_fst, hs, initial_boid_number, decide_eq_true_eq]
    omega

/-- C6, at a concrete input: slider at 3 on the first pass of the loop. -/
theorem update_boid_number_reports_change_witness :
    (0 : ℚ) ≤ 3 ∧
    (update_boid_number initial_boid_number (blank_panel.with_boid_slider 3)).1 = true :=
  ⟨by norm_num,
    (update_boid_number_reports_change 3 initial_boid_number blank_panel).2.2.2.2.2
      (by norm_num)⟩

/-- On a whole slider value whose conversion to `float` is exact, a call of
`update_predator_number` leaves the guard false: the slider value equals the
converted `predator_number` on return. -/
theorem update_predator_number_settles (int_to_float : Int → ℚ) (n p : Int) (panel : Panel)
    (hn : int_to_float n = (n : ℚ)) (hs : panel.predator_number_slider = (n : ℚ)) :
    (update_predator_number int_to_float p panel).2.2.predator_number_slider
      = int_to_float (update_predator_number int_to_float p panel).2.1 := by
  unfold update_predator_number
  split
  · simp only [hs, static_cast_int_intCast, hn]
  · rename_i h
    simpa using h

theorem update_predator_number_false (int_to_float : Int → ℚ) (p : Int) (panel : Panel)
    (h : panel.predator_number_slider = int_to_float p) :
    update_predator_number int_to_float p panel = (false, p, panel) := by
  unfold update_predator_number
  rw [if_neg (by simpa using h)]

/-- C7: for every whole slider value `n` (a `tgui::Slider` with the default step
delivers no other) and every `predator_number` on entry: when
`update_predator_number` is called twice in a row with the slider unmoved, the
second call returns false and leaves `predator_number` and the panel as the
first call left them; and in `main` the second refresh of the predators changes
nothing, so the predators are not initialised again. The hypothesis `hn` says
that the conversion of the `int` `n` to `float` gives the slider value back, as
it does when the slider value is a whole `float` in the range of `int`. -/
theorem update_predator_number_settles_on_whole (E : Externals) (C : Constants) (s : Sim E)
    (n p : Int) (panel : Panel) (hn : E.int_to_float n = (n : ℚ))
    (hs : s.panel.predator_number_slider = (n : ℚ)) :
    (update_predator_number E.int_to_float
      (update_predator_number E.int_to_float p (panel.with_predator_slider (n : ℚ))).2.1
      (update_predator_number E.int_to_float p (panel.with_predator_slider (n : ℚ))).2.2).1
        = false ∧
    (update_predator_number E.int_to_float
      (update_predator_number E.int_to_float p (panel.with_predator_slider (n : ℚ))).2.1
      (update_predator_number E.int_to_float p (panel.with_predator_slider (n : ℚ))).2.2).2.1
        = (update_predator_number E.int_to_float p (panel.with_predator_slider (n : ℚ))).2.1 ∧
    (update_predator_number E.int_to_float
      (update_predator_number E.int_to_float p (panel.with_predator_slider (n : ℚ))).2.1
      (update_predator_number E.int_to_float p (panel.with_predator_slider (n : ℚ))).2.2).2.2
        = (update_predator_number E.int_to_float p (panel.with_predator_slider (n : ℚ))).2.2 ∧
    (update_predator_number E.int_to_float p
      (panel.with_predator_slider (n : ℚ))).2.2.predator_number_slider = (n : ℚ) ∧
    refresh_predators E C (refresh_predators E C s) = refresh_predators E C s := by
  have h1 := update_predator_number_settles E.int_to_float n p
    (panel.with_predator_slider (n : ℚ)) hn rfl
  have h2 := update_predator_number_false E.int_to_float _ _ h1
  refine ⟨by rw [h2], by rw [h2], by rw [h2], ?_, ?_⟩
  · unfold update_predator_number
    split <;> rfl
  · have h3 := update_predator_number_settles E.int_to_float n s.predator_number s.panel hn hs
    have h4 := update_predator_number_false E.int_to_float _ _ h3
    have hp : (refresh_predators E C s).predator_number
        = (update_predator_number E.int_to_float s.predator_number s.panel).2.1 := by
      unfold refresh_predators
      dsimp only
      split <;> rfl
    have hq : (refresh_predators E C s).panel
        = (update_predator_number E.int_to_float s.predator_number s.panel).2.2 := by
      unfold refresh_predators
      dsimp only
      split <;> rfl
    have h5 : update_predator_number E.int_to_float (refresh_predators E C s).predator_number
        (refresh_predators E C s).panel
        = (false, (refresh_predators E C s).predator_number, (refresh_predators E C s).panel) := by
      rw [hp, hq]
      exact h4
    generalize refresh_predators E C s = t at h5
    unfold refresh_predators
    simp only [h5]
    rfl

/-- C7, at a concrete input: with the predator slider moved to 3 from the initial
`predator_number` of 0, the first call returns true and stores 3, and the second
call, the slider unmoved, returns false. -/
theorem update_predator_number_settles_on_whole_witness :
    (update_predator_number sample_externals.int_to_float initial_predator_number
      (blank_panel.with_predator_slider ((3 : Int) : ℚ))).1 = true ∧
    (update_predator_number sample_externals.int_to_float initial_predator_number
      (blank_panel.with_predator_slider ((3 : Int) : ℚ))).2.1 = 3 ∧
    (update_predator_number sample_externals.int_to_float
      (update_predator_number sample_externals.int_to_float initial_predator_number
        (blank_panel.with_predator_slider ((3 : Int) : ℚ))).2.1
      (update_predator_number sample_externals.int_to_float initial_predator_number
        (blank_panel.with_predator_slider ((3 : Int) : ℚ))).2.2).1 = false :=
  ⟨by decide!, by decide!,
    (update_predator_number_settles_on_whole sample_externals sample_constants
      { sample_sim with panel := blank_panel.with_predator_slider ((3 : Int) : ℚ) } 3
      initial_predator_number blank_panel rfl rfl).1⟩

/-- The guard of `update_predator_number` has not the cast of its sibling: on
the value 5/2, which a slider with the default step does not deliver, the second
call, the slider unmoved, would return true again. -/
theorem update_predator_number_repeats_on_fraction :
    (update_predator_number (fun n => (n : ℚ)) initial_predator_number
      (blank_panel.with_predator_slider (5 / 2))).1 = true ∧
    (update_predator_number (fun n => (n : ℚ)) initial_predator_number
      (blank_panel.with_predator_slider (5 / 2))).2.1 = 2 ∧
    (update_predator_number (fun n => (n : ℚ)) initial_predator_number
      (blank_panel.with_predator_slider (5 / 2))).2.2.predator_number_slider = 5 / 2 ∧
    (update_predator_number (fun n => (n : ℚ)) 2
      (update_predator_number (fun n => (n : ℚ)) initial_predator_number
        (blank_panel.with_predator_slider (5 / 2))).2.2).1 = true := by
  decide!

/-- The sibling `update_boid_number` at the same value: the second call, the
slider unmoved at 5/2, returns false. -/
theorem update_boid_number_settles_on_fraction :
    (update_boid_number initial_boid_number (blank_panel.with_boid_slider (5 / 2))).1 = true ∧
    (update_boid_number initial_boid_number (blank_panel.with_boid_slider (5 / 2))).2.1 = 2 ∧
    (update_boid_number 2
      (update_boid_number initial_boid_number
        (blank_panel.with_boid_slider (5 / 2))).2.2).1 = false := by
  decide!

/-! ## Theorems: population set-up -/

section setup
variable (E : Externals) (C : Constants)

/-- The loop of `initialize_birds`, when `i + fuel` iterations are due in all:
it runs `fuel` more iterations, and keeps the vertex array three vertices per
bird. -/
theorem initialize_birds_loop_spec (swarm_n : ℚ) (color : Color) (N : Nat)
    (hN : ∀ j : Nat, (j : ℚ) < swarm_n ↔ j < N)
    (fuel i : Nat) (bv : List Bird) (vs : List Vertex) (mt : E.Gen)
    (hi : i + fuel = N)
    (hal : vs = bv.flatMap (fun b => List.replicate 3 (bird_vertex E b.pos color))) :
    (initialize_birds_loop E C swarm_n color fuel i (bv, vs, mt)).1.length = bv.length + fuel ∧
    (initialize_birds_loop E C swarm_n color fuel i (bv, vs, mt)).2.1
      = (initialize_birds_loop E C swarm_n color fuel i (bv, vs, mt)).1.flatMap
          (fun b => List.replicate 3 (bird_vertex E b.pos color)) := by
  induction fuel generalizing i bv vs mt with
  | zero => simpa [initialize_birds_loop] using hal
  | succ fuel ih =>
    have hlt : (i : ℚ) < swarm_n := (hN i).mpr (by omega)
    simp only [initialize_birds_loop, if_pos hlt]
    subst hal
    have hstep : ∀ b : Bird,
        bv.flatMap (fun b => List.replicate 3 (bird_vertex E b.pos color))
            ++ [bird_vertex E b.pos color, bird_vertex E b.pos color, bird_vertex E b.pos color]
          = (bv ++ [b]).flatMap (fun b => List.replicate 3 (bird_vertex E b.pos color)) := by
      intro b
      rw [List.flatMap_append, List.flatMap_singleton]
      rfl
    have := fun b mt => ih (i + 1) (bv ++ [b]) _ mt (by omega) (hstep b)
    refine ⟨?_, (this _ _).2⟩
    rw [(this _ _).1]
    simp only [List.length_append, List.length_singleton]
    omega

/-- Every bird that the loop of `initialize_birds` adds satisfies a property that
every bird drawn from the generator satisfies. -/
theorem initialize_birds_loop_forall (swarm_n : ℚ) (color : Color) (Q : Bird → Prop)
    (hQ : ∀ (mt : E.Gen) (v : Point),
      Q ⟨⟨(uniform E (C.margin_size + C.controls_width)
              (C.window_width - C.margin_size) mt).1,
            (uniform E C.margin_size (C.window_height - C.margin_size)
              (uniform E (C.margin_size + C.controls_width)
                (C.window_width - C.margin_size) mt).2).1⟩, v⟩)
    (fuel i : Nat) (bv : List Bird) (vs : List Vertex) (mt : E.Gen)
    (hbv : ∀ b ∈ bv, Q b) :
    ∀ b ∈ (initialize_birds_loop E C swarm_n color fuel i (bv, vs, mt)).1, Q b := by
  induction fuel generalizing i bv vs mt with
  | zero => simpa [initialize_birds_loop] using hbv
  | succ fuel ih =>
    simp only [initialize_birds_loop]
    split
    · apply ih
      intro b hb
      rcases List.mem_append.mp hb with h | h
      · exact hbv b h
      · rw [List.mem_singleton.mp h]
        exact hQ _ _
    · exact hbv

theorem three_per_bird_length (color : Color) (bv : List Bird) :
    (bv.flatMap (fun b => List.replicate 3 (bird_vertex E b.pos color))).length
      = 3 * bv.length := by
  induction bv with
  | nil => rfl
  | cons b bv ih =>
    rw [List.flatMap_cons, List.length_append, ih, List.length_replicate, List.length_cons]
    omega

theorem three_per_bird_get (color : Color) (bv : List Bird) (i : Nat) (b : Bird)
    (hb : bv[i]? = some b) (k : Nat) (hk : k < 3) :
    (bv.flatMap (fun b => List.replicate 3 (bird_vertex E b.pos color)))[3 * i + k]?
      = some ⟨⟨E.to_float b.pos.x, E.to_float b.pos.y⟩, color⟩ := by
  induction bv generalizing i with
  | nil => simp at hb
  | cons a bv ih =>
    rw [List.flatMap_cons]
    cases i with
    | zero =>
      simp only [List.getElem?_cons_zero, Option.some.injEq] at hb
      subst hb
      rw [List.getElem?_append_left (by simpa using hk)]
      simp only [Nat.mul_zero, Nat.zero_add]
      rw [List.getElem?_replicate]
      simp [hk, bird_vertex]
    | succ i =>
      simp only [List.getElem?_cons_succ] at hb
      rw [List.getElem?_append_right (by simp; omega)]
      have : 3 * (i + 1) + k - (List.replicate 3 (bird_vertex E a.pos color)).length
          = 3 * i + k := by
        simp
        omega
      rw [this]
      exact ih i hb

/-- The bound `⌈swarm_n⌉` on the iterations of `initialize_birds` is the number
of counters `j` with `j < swarm_n`: the loop is never cut short. -/
theorem lt_iff_lt_ceil_toNat (q : ℚ) (j : Nat) : ((j : ℚ) < q) ↔ j < Int.toNat ⌈q⌉ := by
  have h : ((j : ℚ) < q) ↔ ((j : Int) < ⌈q⌉) := by
    rw [Int.lt_ceil, Int.cast_natCast]
  rw [h]
  omega

/-- The template `initialize_birds` for any `swarm_n`: the number of birds and
the shape of the vertex array. -/
theorem initialize_birds_spec (bird_vec : List Bird) (vertices : List Vertex) (swarm_n : ℚ)
    (color : Color) (mt : E.Gen) :
    (initialize_birds E C bird_vec vertices swarm_n color mt).1.length = Int.toNat ⌈swarm_n⌉ ∧
    (initialize_birds E C bird_vec vertices swarm_n color mt).2.1
      = (initialize_birds E C bird_vec vertices swarm_n color mt).1.flatMap
          (fun b => List.replicate 3 (bird_vertex E b.pos color)) := by
  have hspec := initialize_birds_loop_spec E C swarm_n color (Int.toNat ⌈swarm_n⌉)
    (lt_iff_lt_ceil_toNat swarm_n) (Int.toNat ⌈swarm_n⌉) 0 [] [] mt (by omega) rfl
  simpa [initialize_birds] using hspec

end setup

/-- C8: for every integer `n` and every previous content of the two containers,
`initialize_birds` returns exactly `max n 0` birds and three times as many
vertices, nothing of the previous content is left, the vertices are, bird by
bird, three vertices at the (single-precision) position of the bird, and so
every index `3 * i`, `3 * i + 1`, `3 * i + 2` of a bird `i` is in range of the
vertex array. -/
theorem initialize_birds_three_vertices_per_bird (E : Externals) (C : Constants)
    (bird_vec : List Bird) (vertices : List Vertex) (n : Int) (color : Color) (mt : E.Gen) :
    ((initialize_birds E C bird_vec vertices (n : ℚ) color mt).1.length : Int) = max n 0 ∧
    ((initialize_birds E C bird_vec vertices (n : ℚ) color mt).2.1.length : Int)
      = 3 * max n 0 ∧
    initialize_birds E C bird_vec vertices (n : ℚ) color mt
      = initialize_birds E C [] [] (n : ℚ) color mt ∧
    (∀ i b, (initialize_birds E C bird_vec vertices (n : ℚ) color mt).1[i]? = some b →
      ∀ k, k < 3 →
        (initialize_birds E C bird_vec vertices (n : ℚ) color mt).2.1[3 * i + k]?
          = some ⟨⟨E.to_float b.pos.x, E.to_float b.pos.y⟩, color⟩) ∧
    (∀ i, i < (initialize_birds E C bird_vec vertices (n : ℚ) color mt).1.length →
      3 * i + 2 < (initialize_birds E C bird_vec vertices (n : ℚ) color mt).2.1.length) := by
  have hceil : Int.toNat ⌈(n : ℚ)⌉ = n.toNat := by rw [Int.ceil_intCast]
  obtain ⟨hlen, hvs⟩ := initialize_birds_spec E C bird_vec vertices (n : ℚ) color mt
  have hvlen := three_per_bird_length E color
    (initialize_birds E C bird_vec vertices (n : ℚ) color mt).1
  rw [← hvs] at hvlen
  rw [hceil] at hlen
  refine ⟨?_, ?_, rfl, ?_, ?_⟩
  · rw [hlen]; omega
  · rw [hvlen, hlen]; omega
  · intro i b hb k hk
    rw [hvs]
    exact three_per_bird_get E color _ i b hb k hk
  · intro i hi
    rw [hvlen]
    omega

/-- C8, at a concrete input: three birds asked for, over containers that hold
the population of `sample_sim`. -/
theorem initialize_birds_three_vertices_per_bird_witness :
    (initialize_birds sample_externals sample_constants sample_sim.boid_vector
      sample_sim.boid_vertex ((3 : Int) : ℚ) Color.boid_color (0 : Nat)).2.1.length = 9 ∧
    (3 * 2 + 2 < (initialize_birds sample_externals sample_constants sample_sim.boid_vector
      sample_sim.boid_vertex ((3 : Int) : ℚ) Color.boid_color (0 : Nat)).2.1.length) :=
  ⟨by
      have h := (initialize_birds_three_vertices_per_bird sample_externals sample_constants
        sample_sim.boid_vector sample_sim.boid_vertex 3 Color.boid_color (0 : Nat)).2.1
      omega,
    (initialize_birds_three_vertices_per_bird sample_externals sample_constants
      sample_sim.boid_vector sample_sim.boid_vertex 3 Color.boid_color (0 : Nat)).2.2.2.2 2
      (by
        have h := (initialize_birds_three_vertices_per_bird sample_externals sample_constants
          sample_sim.boid_vector sample_sim.boid_vertex 3 Color.boid_color (0 : Nat)).1
        omega)⟩

section region
variable (E : Externals) (C : Constants)

theorem root_rectangle_extent :
    (root_rectangle C).cx - (root_rectangle C).hw = C.controls_width ∧
    (root_rectangle C).cx + (root_rectangle C).hw = C.window_width ∧
    (root_rectangle C).cy - (root_rectangle C).hh = 0 ∧
    (root_rectangle C).cy + (root_rectangle C).hh = C.window_height := by
  simp only [root_rectangle]
  refine ⟨by ring, by ring, by ring, by ring⟩

end region

/-- C9: when `margin_size` is not negative and each of the two position draws of
`initialize_birds` returns a value between its bounds, every bird that
`initialize_birds` creates lies within the margin from the window border and the
control panel, hence in the root rectangle of the quadtree, whose extent is
`[controls_width, window_width]` by `[0, window_height]`. -/
theorem initialize_birds_inside_root (E : Externals) (C : Constants)
    (hm : 0 ≤ C.margin_size)
    (hx : ∀ mt : E.Gen,
      C.margin_size + C.controls_width
          ≤ (uniform E (C.margin_size + C.controls_width) (C.window_width - C.margin_size) mt).1 ∧
        (uniform E (C.margin_size + C.controls_width) (C.window_width - C.margin_size) mt).1
          ≤ C.window_width - C.margin_size)
    (hy : ∀ mt : E.Gen,
      C.margin_size ≤ (uniform E C.margin_size (C.window_height - C.margin_size) mt).1 ∧
        (uniform E C.margin_size (C.window_height - C.margin_size) mt).1
          ≤ C.window_height - C.margin_size)
    (bird_vec : List Bird) (vertices : List Vertex) (swarm_n : ℚ) (color : Color)
    (mt : E.Gen) :
    (∀ b ∈ (initialize_birds E C bird_vec vertices swarm_n color mt).1,
      (C.controls_width + C.margin_size ≤ b.pos.x ∧ b.pos.x ≤ C.window_width - C.margin_size ∧
        C.margin_size ≤ b.pos.y ∧ b.pos.y ≤ C.window_height - C.margin_size) ∧
      ((root_rectangle C).cx - (root_rectangle C).hw ≤ b.pos.x ∧
        b.pos.x ≤ (root_rectangle C).cx + (root_rectangle C).hw ∧
        (root_rectangle C).cy - (root_rectangle C).hh ≤ b.pos.y ∧
        b.pos.y ≤ (root_rectangle C).cy + (root_rectangle C).hh)) ∧
    ((root_rectangle C).cx - (root_rectangle C).hw = C.controls_width ∧
      (root_rectangle C).cx + (root_rectangle C).hw = C.window_width ∧
      (root_rectangle C).cy - (root_rectangle C).hh = 0 ∧
      (root_rectangle C).cy + (root_rectangle C).hh = C.window_height) := by
  obtain ⟨e1, e2, e3, e4⟩ := root_rectangle_extent C
  refine ⟨?_, e1, e2, e3, e4⟩
  unfold initialize_birds
  apply initialize_birds_loop_forall E C swarm_n color
  · intro g v
    obtain ⟨hx1, hx2⟩ := hx g
    obtain ⟨hy1, hy2⟩ := hy (uniform E (C.margin_size + C.controls_width)
      (C.window_width - C.margin_size) g).2
    rw [e1, e2, e3, e4]
    refine ⟨⟨?_, hx2, hy1, hy2⟩, ?_, ?_, ?_, ?_⟩ <;> simp only <;> linarith
  · intro b hb
    simp at hb

theorem scale_between (a b t : ℚ) (hab : a ≤ b) (h0 : 0 ≤ t) (h1 : t ≤ 1) :
    a ≤ a + (b - a) * t ∧ a + (b - a) * t ≤ b := by
  have hba : 0 ≤ b - a := by linarith
  constructor
  · nlinarith [mul_nonneg hba h0]
  · nlinarith [mul_le_mul_of_nonneg_left h1 hba]

/-- The stand-in generator draws between its bounds. -/
theorem spec_unif_between (a b : ℚ) (hab : a ≤ b) (g : Nat) :
    a ≤ (spec_unif a b g).1 ∧ (spec_unif a b g).1 ≤ b := by
  simp only [spec_unif]
  have hlt : (1103515245 * g + 12345) % 2147483648 < 2147483648 :=
    Nat.mod_lt _ (by decide)
  generalize (1103515245 * g + 12345) % 2147483648 = r at hlt
  have hr : (r : ℚ) ≤ 2147483648 := by exact_mod_cast le_of_lt hlt
  have hpos : (0 : ℚ) < 2147483648 := by norm_num
  exact scale_between a b _ hab (div_nonneg (Nat.cast_nonneg r) (le_of_lt hpos))
    ((div_le_one hpos).mpr hr)

/-- C9, at a concrete input: three boids drawn with `sample_constants` from the
stand-in generator all lie in the root rectangle. -/
theorem initialize_birds_inside_root_witness :
    (0 : ℚ) ≤ sample_constants.margin_size ∧
    (initialize_birds sample_externals sample_constants [] [] 3 Color.boid_color
      (0 : Nat)).1.all (fun b => (root_rectangle sample_constants).contains b.pos) = true :=
  ⟨by decide!,
    List.all_eq_true.mpr (fun b hb => by
      have h := ((initialize_birds_inside_root sample_externals sample_constants
        (by decide!)
        (fun g => spec_unif_between
          (sample_constants.margin_size + sample_constants.controls_width)
          (sample_constants.window_width - sample_constants.margin_size) (by decide!) g)
        (fun g => spec_unif_between sample_constants.margin_size
          (sample_constants.window_height - sample_constants.margin_size) (by decide!) g)
        [] [] 3 Color.boid_color (0 : Nat)).1 b hb).2
      simpa [Rectangle.contains] using h)⟩

/-! ## Lemmas: computations with a trace -/

section traced
variable {E : Externals}

@[simp]
theorem traced_pure_value {α : Type} (a : α) : (pure a : Traced E α).value = a := rfl

@[simp]
theorem traced_pure_trace {α : Type} (a : α) : (pure a : Traced E α).trace = [] := rfl

@[simp]
theorem traced_bind_value {α β : Type} (x : Traced E α) (f : α → Traced E β) :
    (x >>= f).value = (f x.value).value := rfl

@[simp]
theorem traced_bind_trace {α β : Type} (x : Traced E α) (f : α → Traced E β) :
    (x >>= f).trace = x.trace ++ (f x.value).trace := rfl

@[simp]
theorem invoke_value (ev : Event E) : (invoke ev).value = ev.run := rfl

@[simp]
theorem invoke_trace (ev : Event E) : (invoke ev).trace = [ev] := rfl

theorem traced_foldl_snoc_value {σ : Type} (body : σ → Nat → Traced E σ) (l : List Nat)
    (i : Nat) (st : σ) :
    (Traced.foldl body (l ++ [i]) st).value
      = (body (Traced.foldl body l st).value i).value := by
  induction l generalizing st with
  | nil => simp [Traced.foldl, Traced.bind, Traced.pure]
  | cons a l ih => simp [Traced.foldl, Traced.bind, ih]

theorem traced_foldl_snoc_trace {σ : Type} (body : σ → Nat → Traced E σ) (l : List Nat)
    (i : Nat) (st : σ) :
    (Traced.foldl body (l ++ [i]) st).trace
      = (Traced.foldl body l st).trace ++ (body (Traced.foldl body l st).value i).trace := by
  induction l generalizing st with
  | nil => simp [Traced.foldl, Traced.bind, Traced.pure]
  | cons a l ih => simp [Traced.foldl, Traced.bind, ih]

/-- The calls of a loop over `0, …, k - 1` are the calls of its iterations, each
on the state that the iterations before it have left. -/
theorem traced_foldl_range_trace {σ : Type} (body : σ → Nat → Traced E σ) (k : Nat) (st : σ) :
    (Traced.foldl body (List.range k) st).trace
      = (List.range k).flatMap (fun i =>
          (body (Traced.foldl body (List.range i) st).value i).trace) := by
  induction k with
  | zero => simp [Traced.foldl, Traced.pure]
  | succ k ih =>
    rw [List.range_succ, traced_foldl_snoc_trace, ih, List.flatMap_append]
    simp

theorem traced_foldl_range_succ_value {σ : Type} (body : σ → Nat → Traced E σ) (k : Nat)
    (st : σ) :
    (Traced.foldl body (List.range (k + 1)) st).value
      = (body (Traced.foldl body (List.range k) st).value k).value := by
  rw [List.range_succ, traced_foldl_snoc_value]

end traced

/-! ## Lemmas: the index rebuild and the pointer pass -/

section stages
variable (E : Externals) (C : Constants)

theorem build_tree_fold_value (bv : List Boid) (k : Nat) (t : E.Tree) :
    (Traced.foldl (fun t i => invoke (Event.tree_insert t bv i)) (List.range k) t).value
      = (List.range k).foldl (fun t i => E.tree_insert t bv i) t := by
  induction k with
  | zero => simp [Traced.foldl, Traced.pure]
  | succ k ih =>
    rw [traced_foldl_range_succ_value, ih, List.range_succ, List.foldl_append]
    rfl

theorem build_tree_value (bv : List Boid) :
    (build_tree E C bv).value = tree_of E C bv bv.length := by
  simp only [build_tree, traced_bind_value, invoke_value]
  exact build_tree_fold_value E bv bv.length _

theorem build_tree_trace (bv : List Boid) :
    (build_tree E C bv).trace
      = Event.tree_new C.cell_capacity (root_rectangle C)
        :: (List.range bv.length).map (fun i => Event.tree_insert (tree_of E C bv i) bv i) := by
  simp only [build_tree, traced_bind_trace, invoke_trace, invoke_value,
    traced_foldl_range_trace, build_tree_fold_value]
  simp only [List.singleton_append, List.cons.injEq, true_and]
  induction (List.range bv.length) with
  | nil => rfl
  | cons a l ih => rw [List.flatMap_cons, ih]; rfl

theorem pointer_pass_boids_length (m : Point) (l : List Boid) (k : Nat) :
    (pointer_pass_boids E C m k l).value.length = l.length := by
  induction l generalizing k with
  | nil => simp [pointer_pass_boids]
  | cons b l ih =>
    simp only [pointer_pass_boids]
    split <;> simp [ih]

theorem pointer_pass_predators_length (m : Point) (l : List Predator) (k : Nat) :
    (pointer_pass_predators E C m k l).value.length = l.length := by
  induction l generalizing k with
  | nil => simp [pointer_pass_predators]
  | cons b l ih =>
    simp only [pointer_pass_predators]
    split <;> simp [ih]

theorem pointer_pass_boids_keeps (m : Point) (l : List Boid) (k i : Nat) (b : Boid)
    (hb : l[i]? = some b)
    (hfar : ¬ E.distance (E.point_sub b.pos m) < C.repel_range) :
    (pointer_pass_boids E C m k l).value[i]? = some b := by
  induction l generalizing k i with
  | nil => simp at hb
  | cons a l ih =>
    cases i with
    | zero =>
      simp at hb
      subst hb
      simp [pointer_pass_boids, hfar]
    | succ i =>
      simp at hb
      simp only [pointer_pass_boids]
      split <;> simpa using ih (k + 1) i hb

theorem pointer_pass_predators_keeps (m : Point) (l : List Predator) (k i : Nat) (b : Predator)
    (hb : l[i]? = some b)
    (hfar : ¬ E.distance (E.point_sub b.pos m) < C.repel_range) :
    (pointer_pass_predators E C m k l).value[i]? = some b := by
  induction l generalizing k i with
  | nil => simp at hb
  | cons a l ih =>
    cases i with
    | zero =>
      simp at hb
      subst hb
      simp [pointer_pass_predators, hfar]
    | succ i =>
      simp at hb
      simp only [pointer_pass_predators]
      split <;> simpa using ih (k + 1) i hb

theorem pointer_pass_boids_events (m : Point) (l : List Boid) (k : Nat) (ev : Event E)
    (hev : ev ∈ (pointer_pass_boids E C m k l).trace) :
    ∃ j b, ev = Event.pointer_repel_boid (k + j) b m C.repel_range C.repel_coefficent ∧
      l[j]? = some b ∧ E.distance (E.point_sub b.pos m) < C.repel_range := by
  induction l generalizing k with
  | nil => simp [pointer_pass_boids] at hev
  | cons a l ih =>
    simp only [pointer_pass_boids] at hev
    split at hev
    · rename_i hnear
      simp only [traced_bind_trace, invoke_trace, traced_pure_trace, List.append_nil,
        List.singleton_append, List.mem_cons, traced_bind_value] at hev
      rcases hev with h | h
      · exact ⟨0, a, by simpa using h, by simp, hnear⟩
      · obtain ⟨j, b, h1, h2, h3⟩ := ih (k + 1) h
        exact ⟨j + 1, b, by rw [h1]; congr 1; omega, by simpa using h2, h3⟩
    · simp only [traced_bind_trace, traced_pure_trace, List.append_nil] at hev
      obtain ⟨j, b, h1, h2, h3⟩ := ih (k + 1) hev
      exact ⟨j + 1, b, by rw [h1]; congr 1; omega, by simpa using h2, h3⟩

theorem pointer_pass_predators_events (m : Point) (l : List Predator) (k : Nat) (ev : Event E)
    (hev : ev ∈ (pointer_pass_predators E C m k l).trace) :
    ∃ j b, ev = Event.pointer_repel_predator (k + j) b m C.repel_range C.repel_coefficent ∧
      l[j]? = some b ∧ E.distance (E.point_sub b.pos m) < C.repel_range := by
  induction l generalizing k with
  | nil => simp [pointer_pass_predators] at hev
  | cons a l ih =>
    simp only [pointer_pass_predators] at hev
    split at hev
    · rename_i hnear
      simp only [traced_bind_trace, invoke_trace, traced_pure_trace, List.append_nil,
        List.singleton_append, List.mem_cons, traced_bind_value] at hev
      rcases hev with h | h
      · exact ⟨0, a, by simpa using h, by simp, hnear⟩
      · obtain ⟨j, b, h1, h2, h3⟩ := ih (k + 1) h
        exact ⟨j + 1, b, by rw [h1]; congr 1; omega, by simpa using h2, h3⟩
    · simp only [traced_bind_trace, traced_pure_trace, List.append_nil] at hev
      obtain ⟨j, b, h1, h2, h3⟩ := ih (k + 1) hev
      exact ⟨j + 1, b, by rw [h1]; congr 1; omega, by simpa using h2, h3⟩

theorem pointer_pass_lengths (inp : TickInput) (bv : List Boid) (pv : List Predator) :
    (pointer_pass E C inp bv pv).value.1.length = bv.length ∧
    (pointer_pass E C inp bv pv).value.2.length = pv.length := by
  unfold pointer_pass
  split <;> simp [pointer_pass_boids_length, pointer_pass_predators_length]

theorem pointer_pass_kinds (inp : TickInput) (bv : List Boid) (pv : List Predator)
    (ev : Event E) (hev : ev ∈ (pointer_pass E C inp bv pv).trace) :
    (∃ j b, ev = Event.pointer_repel_boid j b inp.mouse_position C.repel_range
        C.repel_coefficent) ∨
    (∃ j b, ev = Event.pointer_repel_predator j b inp.mouse_position C.repel_range
        C.repel_coefficent) := by
  unfold pointer_pass at hev
  split at hev
  · simp only [traced_bind_trace, traced_pure_trace, List.append_nil, List.mem_append] at hev
    rcases hev with h | h
    · obtain ⟨j, b, h1, -, -⟩ := pointer_pass_boids_events E C _ _ _ _ h
      exact Or.inl ⟨_, _, h1⟩
    · obtain ⟨j, b, h1, -, -⟩ := pointer_pass_predators_events E C _ _ _ _ h
      exact Or.inr ⟨_, _, h1⟩
  · simp at hev

theorem pointer_pass_stage (inp : TickInput) (bv : List Boid) (pv : List Predator)
    (ev : Event E) (hev : ev ∈ (pointer_pass E C inp bv pv).trace) : code_stage ev = 1 := by
  rcases pointer_pass_kinds E C inp bv pv ev hev with ⟨j, b, h⟩ | ⟨j, b, h⟩ <;> rw [h] <;> rfl

/-- A read-out of the trace that ignores the pointer calls finds nothing in the
pointer pass. -/
theorem pointer_pass_filterMap {β : Type} (inp : TickInput) (f : Event E → Option β)
    (hb : ∀ j b m r k, f (Event.pointer_repel_boid j b m r k) = none)
    (hp : ∀ j b m r k, f (Event.pointer_repel_predator j b m r k) = none)
    (bv : List Boid) (pv : List Predator) :
    (pointer_pass E C inp bv pv).trace.filterMap f = [] := by
  rw [List.filterMap_eq_nil_iff]
  intro ev hev
  rcases pointer_pass_kinds E C inp bv pv ev hev with ⟨j, b, h⟩ | ⟨j, b, h⟩
  · rw [h, hb]
  · rw [h, hp]

end stages

/-! ## Lemmas: the predator loop and the boid loop -/

section lists

theorem set_take_map_drop {α : Type} (f : α → α) (l : List α) (k : Nat) (p : α)
    (hp : l[k]? = some p) :
    ((l.take k).map f ++ l.drop k).set k (f p) = (l.take (k + 1)).map f ++ l.drop (k + 1) := by
  induction l generalizing k with
  | nil => simp at hp
  | cons a l ih =>
    cases k with
    | zero =>
      simp at hp
      subst hp
      simp
    | succ k =>
      simp at hp
      simpa using ih k hp

theorem getElem?_take_map_drop {α : Type} (f : α → α) (l : List α) (k : Nat) :
    ((l.take k).map f ++ l.drop k)[k]? = l[k]? := by
  induction l generalizing k with
  | nil => simp
  | cons a l ih =>
    cases k with
    | zero => simp
    | succ k => simpa using ih k

theorem flatMap_replicate {β : Type} (n m : Nat) (b : β) :
    (List.range n).flatMap (fun _ => List.replicate m b) = List.replicate (n * m) b := by
  induction n with
  | zero => simp
  | succ n ih =>
    rw [List.range_succ, List.flatMap_append, ih, Nat.succ_mul, List.replicate_add,
      List.flatMap_singleton]

theorem flatMap_single {α β : Type} (f : α → β) (l : List α) :
    l.flatMap (fun a => [f a]) = l.map f := by
  induction l with
  | nil => rfl
  | cons a l ih => rw [List.flatMap_cons, ih]; rfl

theorem flatMap_nil_const {α β : Type} (l : List α) :
    l.flatMap (fun _ => ([] : List β)) = [] := by
  induction l with
  | nil => rfl
  | cons a l ih => rw [List.flatMap_cons, ih]; rfl

end lists

section predators
variable (E : Externals) (C : Constants) (pr : ℚ) (bv : List Boid)

theorem predator_step_some (st : List Predator × List Vertex) (i : Nat) (p : Predator)
    (hp : st.1[i]? = some p) :
    (predator_step E C pr bv st i).value.1
        = st.1.set i (E.predator_update p C.delta_t_predator pr bv) ∧
    (predator_step E C pr bv st i).trace
        = [Event.predator_update i p C.delta_t_predator pr bv,
            Event.predator_vertex_update st.2
              (E.predator_update p C.delta_t_predator pr bv) i C.predator_size] := by
  unfold predator_step
  rw [hp]
  exact ⟨rfl, rfl⟩

theorem predator_pass_upto_succ (pv : List Predator) (vx : List Vertex) (k : Nat) :
    (predator_pass_upto E C pr bv pv vx (k + 1)).value
      = (predator_step E C pr bv (predator_pass_upto E C pr bv pv vx k).value k).value := by
  unfold predator_pass_upto
  exact traced_foldl_range_succ_value _ _ _

/-- After `k` iterations of the predator loop the first `k` predators are
updated and the others untouched. -/
theorem predator_pass_upto_value (pv : List Predator) (vx : List Vertex) (k : Nat)
    (hk : k ≤ pv.length) :
    (predator_pass_upto E C pr bv pv vx k).value.1
      = (pv.take k).map (fun p => E.predator_update p C.delta_t_predator pr bv)
        ++ pv.drop k := by
  induction k with
  | zero => simp [predator_pass_upto, Traced.foldl, Traced.pure]
  | succ k ih =>
    have hlt : k < pv.length := by omega
    have hget : pv[k]? = some pv[k] := List.getElem?_eq_getElem hlt
    have hcur : (predator_pass_upto E C pr bv pv vx k).value.1[k]? = some pv[k] := by
      rw [ih (by omega), getElem?_take_map_drop, hget]
    rw [predator_pass_upto_succ, (predator_step_some E C pr bv _ k _ hcur).1, ih (by omega)]
    exact set_take_map_drop _ pv k _ hget

theorem predator_pass_value (pv : List Predator) (vx : List Vertex) :
    (predator_pass E C pr bv pv vx).value.1
      = pv.map (fun p => E.predator_update p C.delta_t_predator pr bv) := by
  unfold predator_pass
  rw [predator_pass_upto_value E C pr bv pv vx pv.length (le_refl _)]
  simp

/-- The calls of the predator loop, iteration by iteration. -/
theorem predator_pass_trace (pv : List Predator) (vx : List Vertex) :
    (predator_pass E C pr bv pv vx).trace
      = (List.range pv.length).flatMap (fun i =>
          (predator_step E C pr bv (predator_pass_upto E C pr bv pv vx i).value i).trace) := by
  unfold predator_pass predator_pass_upto
  exact traced_foldl_range_trace _ _ _

theorem predator_pass_step_trace (pv : List Predator) (vx : List Vertex) (i : Nat)
    (hi : i < pv.length) :
    ∃ vertices,
      (predator_step E C pr bv (predator_pass_upto E C pr bv pv vx i).value i).trace
        = [Event.predator_update i pv[i] C.delta_t_predator pr bv,
            Event.predator_vertex_update vertices
              (E.predator_update pv[i] C.delta_t_predator pr bv) i C.predator_size] := by
  have hcur : (predator_pass_upto E C pr bv pv vx i).value.1[i]? = some pv[i] := by
    rw [predator_pass_upto_value E C pr bv pv vx i (by omega), getElem?_take_map_drop,
      List.getElem?_eq_getElem hi]
  exact ⟨_, (predator_step_some E C pr bv _ i _ hcur).2⟩

/-- A call of the predator loop is the update of a predator as the pointer pass
left it, on the boid vector handed to the loop, or the vertex update that
follows it. -/
theorem predator_pass_events (pv : List Predator) (vx : List Vertex) (ev : Event E)
    (hev : ev ∈ (predator_pass E C pr bv pv vx).trace) :
    ∃ i p, pv[i]? = some p ∧
      (ev = Event.predator_update i p C.delta_t_predator pr bv ∨
        ∃ vertices, ev = Event.predator_vertex_update vertices
          (E.predator_update p C.delta_t_predator pr bv) i C.predator_size) := by
  rw [predator_pass_trace] at hev
  obtain ⟨i, hi, h⟩ := List.mem_flatMap.mp hev
  have hi' : i < pv.length := List.mem_range.mp hi
  obtain ⟨vertices, hstep⟩ := predator_pass_step_trace E C pr bv pv vx i hi'
  rw [hstep] at h
  refine ⟨i, pv[i], List.getElem?_eq_getElem hi', ?_⟩
  simp only [List.mem_cons, List.mem_singleton, List.not_mem_nil, or_false] at h
  rcases h with h | h
  · exact Or.inl h
  · exact Or.inr ⟨vertices, h⟩

/-- A read-out of the predator loop, iteration by iteration. -/
theorem predator_pass_filterMap {β : Type} (f : Event E → Option β) (g : Nat → List β)
    (pv : List Predator) (vx : List Vertex)
    (hg : ∀ i p vertices q size,
      [Event.predator_update i p C.delta_t_predator pr bv,
        Event.predator_vertex_update vertices q i size].filterMap f = g i) :
    (predator_pass E C pr bv pv vx).trace.filterMap f = (List.range pv.length).flatMap g := by
  rw [predator_pass_trace, List.filterMap_flatMap]
  apply List.flatMap_congr
  intro i hi
  obtain ⟨vertices, hstep⟩ := predator_pass_step_trace E C pr bv pv vx i (List.mem_range.mp hi)
  rw [hstep]
  exact hg _ _ _ _ _

theorem predator_pass_calls (pv : List Predator) (vx : List Vertex) :
    (predator_pass E C pr bv pv vx).trace.map Event.call
      = (List.range pv.length).flatMap predator_calls := by
  rw [predator_pass_trace, List.map_flatMap]
  apply List.flatMap_congr
  intro i hi
  obtain ⟨vertices, hstep⟩ := predator_pass_step_trace E C pr bv pv vx i (List.mem_range.mp hi)
  rw [hstep]
  rfl

theorem predator_pass_stage (pv : List Predator) (vx : List Vertex) (ev : Event E)
    (hev : ev ∈ (predator_pass E C pr bv pv vx).trace) : code_stage ev = 2 := by
  obtain ⟨i, p, -, h | ⟨vertices, h⟩⟩ := predator_pass_events E C pr bv pv vx ev hev <;>
    rw [h] <;> rfl

end predators

section boids
variable (E : Externals) (C : Constants) (P : Params) (tree : E.Tree) (pv : List Predator)

theorem avoid_predators_value (i p : Nat) (preds : List Predator) (b : Boid) :
    (avoid_predators E C P.prey_range i p preds b).value
      = preds.foldl (fun x predator =>
          E.boid_repel x predator.pos P.prey_range C.predator_avoidance_coeff) b := by
  induction preds generalizing p b with
  | nil => rfl
  | cons q preds ih =>
    simp only [avoid_predators, traced_bind_value, invoke_value, List.foldl_cons]
    exact ih _ _

/-- A call of the `for_each` over the predators is the repulsion of boid `i`
from the position of one of them, with `prey_range` and the avoidance
coefficient. -/
theorem avoid_predators_events (i p : Nat) (preds : List Predator) (b : Boid) (ev : Event E)
    (hev : ev ∈ (avoid_predators E C P.prey_range i p preds b).trace) :
    ∃ j q self, preds[j]? = some q ∧
      ev = Event.predator_avoid i self (p + j) q.pos P.prey_range
        C.predator_avoidance_coeff := by
  induction preds generalizing p b with
  | nil => simp [avoid_predators] at hev
  | cons q preds ih =>
    simp only [avoid_predators, traced_bind_trace, invoke_trace, invoke_value,
      List.singleton_append, List.mem_cons] at hev
    rcases hev with h | h
    · exact ⟨0, q, b, by simp, by simpa using h⟩
    · obtain ⟨j, q1, self, h1, h2⟩ := ih _ _ h
      exact ⟨j + 1, q1, self, by simpa using h1, by rw [h2]; congr 1; omega⟩

theorem avoid_predators_calls (i p : Nat) (preds : List Predator) (b : Boid) :
    (avoid_predators E C P.prey_range i p preds b).trace.map Event.call
      = (List.range preds.length).map (fun j => Call.predator_avoid i (p + j)) := by
  induction preds generalizing p b with
  | nil => rfl
  | cons q preds ih =>
    simp only [avoid_predators, traced_bind_trace, invoke_trace, invoke_value,
      List.singleton_append, List.map_cons, List.length_cons, List.range_succ_eq_map,
      List.map_map, ih]
    refine congrArg₂ _ rfl ?_
    apply List.map_congr_left
    intro j _
    simp only [Function.comp, Nat.succ_eq_add_one]
    congr 1
    omega

theorem avoid_predators_filterMap_none {β : Type} (f : Event E → Option β)
    (hf : ∀ i self p source range coeff,
      f (Event.predator_avoid i self p source range coeff) = none)
    (i p : Nat) (preds : List Predator) (b : Boid) :
    (avoid_predators E C P.prey_range i p preds b).trace.filterMap f = [] := by
  rw [List.filterMap_eq_nil_iff]
  intro ev hev
  obtain ⟨j, q, self, -, h⟩ := avoid_predators_events E C P i p preds b ev hev
  rw [h, hf]

theorem avoid_predators_ranges (i p : Nat) (preds : List Predator) (b : Boid) :
    (avoid_predators E C P.prey_range i p preds b).trace.filterMap Event.avoid_range
      = List.replicate preds.length P.prey_range := by
  induction preds generalizing p b with
  | nil => rfl
  | cons q preds ih =>
    simp only [avoid_predators, traced_bind_trace, invoke_trace, invoke_value,
      List.singleton_append, List.filterMap_cons, Event.avoid_range, List.length_cons,
      List.replicate_succ, ih]

/-- One iteration of the boid loop on a boid that is there: the boid it leaves
and the calls it makes. -/
theorem boid_step_some (st : List Boid × List Vertex) (i : Nat) (b : Boid)
    (hb : st.1[i]? = some b) :
    (boid_step E C P tree pv st i).value.1
        = st.1.set i (boid_step_result E C P tree pv st.1 i b) ∧
    ∃ vertices,
      (boid_step E C P tree pv st i).trace
        = [Event.tree_query tree P.range st.1 i,
            Event.boid_update i b C.delta_t_boid (E.tree_query tree P.range st.1 i) st.1
              P.separation_range P.separation_coefficent P.cohesion_coefficent
              P.alignment_coefficent]
          ++ (avoid_predators E C P.prey_range i 0 pv
                (E.boid_update b C.delta_t_boid (deref st.1 (E.tree_query tree P.range st.1 i))
                  P.separation_range P.separation_coefficent P.cohesion_coefficent
                  P.alignment_coefficent)).trace
          ++ [Event.boid_vertex_update vertices (boid_step_result E C P tree pv st.1 i b) i
                C.boid_size] := by
  unfold boid_step
  rw [hb]
  simp only [traced_bind_value, traced_bind_trace, invoke_value, invoke_trace,
    traced_pure_value, traced_pure_trace, avoid_predators_value, Event.run,
    List.append_nil]
  exact ⟨rfl, st.2, by simp [boid_step_result]⟩

theorem boid_step_length (st : List Boid × List Vertex) (i : Nat) :
    (boid_step E C P tree pv st i).value.1.length = st.1.length := by
  unfold boid_step
  split <;> simp

theorem boid_step_other (st : List Boid × List Vertex) (i j : Nat) (hij : i ≠ j) :
    (boid_step E C P tree pv st i).value.1[j]? = st.1[j]? := by
  unfold boid_step
  split
  · rfl
  · simp [List.getElem?_set_ne hij]

variable (bv : List Boid) (vx : List Vertex)

theorem boid_pass_upto_succ (k : Nat) :
    (boid_pass_upto E C P tree pv bv vx (k + 1)).value
      = (boid_step E C P tree pv (boid_pass_upto E C P tree pv bv vx k).value k).value := by
  unfold boid_pass_upto
  exact traced_foldl_range_succ_value _ _ _

theorem boid_pass_upto_length (k : Nat) :
    (boid_pass_upto E C P tree pv bv vx k).value.1.length = bv.length := by
  induction k with
  | zero => simp [boid_pass_upto, Traced.foldl, Traced.pure]
  | succ k ih => rw [boid_pass_upto_succ, boid_step_length, ih]

/-- The iterations before `k` leave the boids from index `k` on untouched. -/
theorem boid_pass_upto_later (k j : Nat) (hkj : k ≤ j) :
    (boid_pass_upto E C P tree pv bv vx k).value.1[j]? = bv[j]? := by
  induction k with
  | zero => simp [boid_pass_upto, Traced.foldl, Traced.pure]
  | succ k ih =>
    rw [boid_pass_upto_succ, boid_step_other E C P tree pv _ k j (by omega)]
    exact ih (by omega)

/-- The iterations from `k` on leave the boids before index `k` untouched. -/
theorem boid_pass_upto_earlier (k m j : Nat) (hjk : j < k) (hkm : k ≤ m) :
    (boid_pass_upto E C P tree pv bv vx m).value.1[j]?
      = (boid_pass_upto E C P tree pv bv vx k).value.1[j]? := by
  induction m with
  | zero => omega
  | succ m ih =>
    rcases Nat.eq_or_lt_of_le hkm with h | h
    · rw [h]
    · rw [boid_pass_upto_succ, boid_step_other E C P tree pv _ m j (by omega)]
      exact ih (by omega)

/-- The vector that iteration `k` of the boid loop finds: the first `k` boids
as the loop leaves them, the others as they were before the loop. -/
theorem boid_pass_upto_in_place (k : Nat) (hk : k ≤ bv.length) :
    (boid_pass_upto E C P tree pv bv vx k).value.1
      = in_place bv (boid_pass E C P tree pv bv vx).value.1 k := by
  apply List.ext_getElem?
  intro j
  unfold in_place boid_pass
  have hlen := boid_pass_upto_length E C P tree pv bv vx bv.length
  by_cases hj : j < k
  · rw [List.getElem?_append_left (by rw [List.length_take, hlen]; omega),
      List.getElem?_take_of_lt hj]
    exact (boid_pass_upto_earlier E C P tree pv bv vx k bv.length j hj hk).symm
  · rw [List.getElem?_append_right (by rw [List.length_take, hlen]; omega),
      List.length_take, hlen, Nat.min_eq_left hk, List.getElem?_drop,
      boid_pass_upto_later E C P tree pv bv vx k j (by omega)]
    congr 1
    omega

theorem boid_pass_upto_current (k : Nat) (hk : k < bv.length) :
    (boid_pass_upto E C P tree pv bv vx k).value.1[k]? = some bv[k] := by
  rw [boid_pass_upto_later E C P tree pv bv vx k k (le_refl _), List.getElem?_eq_getElem hk]

/-- The boid that the tick leaves at index `i`: one iteration of the loop on the
boid as it was before the loop and on the vector that the iteration finds. -/
theorem boid_pass_final (i : Nat) (hi : i < bv.length) :
    (boid_pass E C P tree pv bv vx).value.1[i]?
      = some (boid_step_result E C P tree pv
          (in_place bv (boid_pass E C P tree pv bv vx).value.1 i) i bv[i]) := by
  have hcur := boid_pass_upto_current E C P tree pv bv vx i hi
  have hstep := (boid_step_some E C P tree pv _ i _ hcur).1
  have hnext : (boid_pass_upto E C P tree pv bv vx (i + 1)).value.1[i]?
      = some (boid_step_result E C P tree pv
          (boid_pass_upto E C P tree pv bv vx i).value.1 i bv[i]) := by
    rw [boid_pass_upto_succ, hstep,
      List.getElem?_set_self (by rw [boid_pass_upto_length]; exact hi)]
  rw [← boid_pass_upto_in_place E C P tree pv bv vx i (by omega), ← hnext]
  unfold boid_pass
  exact boid_pass_upto_earlier E C P tree pv bv vx (i + 1) bv.length i (by omega) (by omega)

theorem boid_pass_trace :
    (boid_pass E C P tree pv bv vx).trace
      = (List.range bv.length).flatMap (fun i =>
          (boid_step E C P tree pv (boid_pass_upto E C P tree pv bv vx i).value i).trace) := by
  unfold boid_pass boid_pass_upto
  exact traced_foldl_range_trace _ _ _

/-- The calls of iteration `i` of the boid loop, on the vector that the
iteration finds. -/
theorem boid_pass_step_trace (i : Nat) (hi : i < bv.length) :
    ∃ vertices,
      (boid_step E C P tree pv (boid_pass_upto E C P tree pv bv vx i).value i).trace
        = [Event.tree_query tree P.range (in_place bv (boid_pass E C P tree pv bv vx).value.1 i) i,
            Event.boid_update i bv[i] C.delta_t_boid
              (E.tree_query tree P.range
                (in_place bv (boid_pass E C P tree pv bv vx).value.1 i) i)
              (in_place bv (boid_pass E C P tree pv bv vx).value.1 i)
              P.separation_range P.separation_coefficent P.cohesion_coefficent
              P.alignment_coefficent]
          ++ (avoid_predators E C P.prey_range i 0 pv
                (E.boid_update bv[i] C.delta_t_boid
                  (deref (in_place bv (boid_pass E C P tree pv bv vx).value.1 i)
                    (E.tree_query tree P.range
                      (in_place bv (boid_pass E C P tree pv bv vx).value.1 i) i))
                  P.separation_range P.separation_coefficent P.cohesion_coefficent
                  P.alignment_coefficent)).trace
          ++ [Event.boid_vertex_update vertices
                (boid_step_result E C P tree pv
                  (in_place bv (boid_pass E C P tree pv bv vx).value.1 i) i bv[i]) i
                C.boid_size] := by
  have hcur := boid_pass_upto_current E C P tree pv bv vx i hi
  obtain ⟨vertices, h⟩ := (boid_step_some E C P tree pv _ i _ hcur).2
  rw [boid_pass_upto_in_place E C P tree pv bv vx i (by omega)] at h
  exact ⟨vertices, h⟩

end boids

/-! ## Lemmas: the trace and the final state of a tick -/

section tick
variable (E : Externals) (C : Constants) (inp : TickInput) (s : Sim E)

theorem boids_before_updates_length :
    (boids_before_updates E C inp s).length = (populations E C s).boid_vector.length :=
  (pointer_pass_lengths E C inp _ _).1

theorem predators_before_updates_length :
    (predators_before_updates E C inp s).length = (populations E C s).predator_vector.length :=
  (pointer_pass_lengths E C inp _ _).2

/-- The calls of a tick are the calls of its four stages, one stage after the
other, and its final vectors are those that the two loops leave. -/
theorem tick_parts :
    (tick E C inp s).trace
      = (build_tree E C (populations E C s).boid_vector).trace
        ++ (pointer_pass E C inp (populations E C s).boid_vector
              (populations E C s).predator_vector).trace
        ++ (predator_pass E C
              (C.prey_to_predator_coeff * (update_from_panel C s.panel).prey_range)
              (boids_before_updates E C inp s) (predators_before_updates E C inp s)
              (populations E C s).predator_vertex).trace
        ++ (boid_pass E C (update_from_panel C s.panel)
              (tree_of E C (populations E C s).boid_vector
                (populations E C s).boid_vector.length)
              (tick E C inp s).value.predator_vector
              (boids_before_updates E C inp s) (populations E C s).boid_vertex).trace ∧
    (tick E C inp s).value.boid_vector
      = (boid_pass E C (update_from_panel C s.panel)
          (tree_of E C (populations E C s).boid_vector (populations E C s).boid_vector.length)
          (tick E C inp s).value.predator_vector
          (boids_before_updates E C inp s) (populations E C s).boid_vertex).value.1 ∧
    (tick E C inp s).value.predator_vector
      = (predators_before_updates E C inp s).map (fun p =>
          E.predator_update p C.delta_t_predator
            (C.prey_to_predator_coeff * (update_from_panel C s.panel).prey_range)
            (boids_before_updates E C inp s)) := by
  have hpred : (tick E C inp s).value.predator_vector
      = (predators_before_updates E C inp s).map (fun p =>
          E.predator_update p C.delta_t_predator
            (C.prey_to_predator_coeff * (update_from_panel C s.panel).prey_range)
            (boids_before_updates E C inp s)) := by
    simp only [tick, traced_bind_value, traced_pure_value]
    exact predator_pass_value E C _ _ _ _
  have hpv : (predator_pass E C
        (C.prey_to_predator_coeff * (update_from_panel C s.panel).prey_range)
        (boids_before_updates E C inp s) (predators_before_updates E C inp s)
        (populations E C s).predator_vertex).value.1
      = (tick E C inp s).value.predator_vector := by
    rw [hpred]
    exact predator_pass_value E C _ _ _ _
  refine ⟨?_, ?_, hpred⟩
  · rw [← hpv, ← build_tree_value]
    simp only [tick, traced_bind_trace, traced_bind_value, traced_pure_trace, List.append_nil,
      List.append_assoc]
    rfl
  · rw [← hpv, ← build_tree_value]
    simp only [tick, traced_bind_value, traced_pure_value]
    rfl

end tick

section boidtrace
variable (E : Externals) (C : Constants) (P : Params) (tree : E.Tree) (pv : List Predator)
  (bv : List Boid) (vx : List Vertex)

/-- A read-out of the boid loop, iteration by iteration. -/
theorem boid_pass_filterMap {β : Type} (f : Event E → Option β) (g : Nat → List β)
    (hg : ∀ i (hi : i < bv.length) (heap : List Boid) (vertices : List Vertex) (b2 : Boid),
      heap = in_place bv (boid_pass E C P tree pv bv vx).value.1 i →
      ([Event.tree_query tree P.range heap i,
          Event.boid_update i bv[i] C.delta_t_boid (E.tree_query tree P.range heap i) heap
            P.separation_range P.separation_coefficent P.cohesion_coefficent
            P.alignment_coefficent]
        ++ (avoid_predators E C P.prey_range i 0 pv
              (E.boid_update bv[i] C.delta_t_boid (deref heap (E.tree_query tree P.range heap i))
                P.separation_range P.separation_coefficent P.cohesion_coefficent
                P.alignment_coefficent)).trace
        ++ [Event.boid_vertex_update vertices b2 i C.boid_size]).filterMap f = g i) :
    (boid_pass E C P tree pv bv vx).trace.filterMap f = (List.range bv.length).flatMap g := by
  rw [boid_pass_trace, List.filterMap_flatMap]
  apply List.flatMap_congr
  intro i hi
  obtain ⟨vertices, hstep⟩ := boid_pass_step_trace E C P tree pv bv vx i (List.mem_range.mp hi)
  rw [hstep]
  exact hg i (List.mem_range.mp hi) _ _ _ rfl

/-- A call of the boid loop, by kind. -/
theorem boid_pass_events (ev : Event E) (hev : ev ∈ (boid_pass E C P tree pv bv vx).trace) :
    ∃ i, ∃ hi : i < bv.length,
      ev = Event.tree_query tree P.range
        (in_place bv (boid_pass E C P tree pv bv vx).value.1 i) i ∨
      ev = Event.boid_update i bv[i] C.delta_t_boid
        (E.tree_query tree P.range (in_place bv (boid_pass E C P tree pv bv vx).value.1 i) i)
        (in_place bv (boid_pass E C P tree pv bv vx).value.1 i)
        P.separation_range P.separation_coefficent P.cohesion_coefficent
        P.alignment_coefficent ∨
      (∃ j q self, pv[j]? = some q ∧
        ev = Event.predator_avoid i self j q.pos P.prey_range C.predator_avoidance_coeff) ∨
      (∃ vertices b2, ev = Event.boid_vertex_update vertices b2 i C.boid_size) := by
  rw [boid_pass_trace] at hev
  obtain ⟨i, hi, h⟩ := List.mem_flatMap.mp hev
  have hi' : i < bv.length := List.mem_range.mp hi
  obtain ⟨vertices, hstep⟩ := boid_pass_step_trace E C P tree pv bv vx i hi'
  rw [hstep] at h
  refine ⟨i, hi', ?_⟩
  simp only [List.mem_append, List.mem_cons, List.mem_singleton, List.not_mem_nil,
    or_false] at h
  rcases h with ((h | h) | h) | h
  · exact Or.inl h
  · exact Or.inr (Or.inl h)
  · obtain ⟨j, q, self, h1, h2⟩ := avoid_predators_events E C P i 0 pv _ ev h
    exact Or.inr (Or.inr (Or.inl ⟨j, q, self, h1, by simpa using h2⟩))
  · exact Or.inr (Or.inr (Or.inr ⟨_, _, h⟩))

theorem boid_pass_stage (ev : Event E) (hev : ev ∈ (boid_pass E C P tree pv bv vx).trace) :
    code_stage ev = 3 := by
  obtain ⟨i, hi, h | h | ⟨j, q, self, -, h⟩ | ⟨vertices, b2, h⟩⟩ :=
    boid_pass_events E C P tree pv bv vx ev hev <;> rw [h] <;> rfl

theorem boid_pass_calls :
    (boid_pass E C P tree pv bv vx).trace.map Event.call
      = (List.range bv.length).flatMap (boid_calls pv.length) := by
  rw [boid_pass_trace, List.map_flatMap]
  apply List.flatMap_congr
  intro i hi
  obtain ⟨vertices, hstep⟩ := boid_pass_step_trace E C P tree pv bv vx i (List.mem_range.mp hi)
  rw [hstep]
  simp only [List.map_append, List.map_cons, List.map_nil, avoid_predators_calls, boid_calls,
    Event.call, Nat.zero_add]

theorem boid_pass_updates :
    boid_updates (boid_pass E C P tree pv bv vx).trace
      = (List.range bv.length).flatMap (fun i =>
          match bv[i]? with
          | none => []
          | some b =>
            [⟨i, b,
              E.tree_query tree P.range (in_place bv (boid_pass E C P tree pv bv vx).value.1 i) i,
              in_place bv (boid_pass E C P tree pv bv vx).value.1 i⟩]) := by
  unfold boid_updates
  apply boid_pass_filterMap
  intro i hi heap vertices b2 hheap
  rw [List.getElem?_eq_getElem hi, List.filterMap_append, List.filterMap_append,
    avoid_predators_filterMap_none E C P Event.boid_update_args (fun _ _ _ _ _ _ => rfl), hheap]
  rfl

theorem boid_pass_queried_trees :
    queried_trees (boid_pass E C P tree pv bv vx).trace = List.replicate bv.length tree := by
  unfold queried_trees
  rw [boid_pass_filterMap E C P tree pv bv vx Event.queried_tree (fun _ => [tree])]
  · simpa using flatMap_replicate bv.length 1 tree
  · intro i hi heap vertices b2 _
    rw [List.filterMap_append, List.filterMap_append,
      avoid_predators_filterMap_none E C P Event.queried_tree (fun _ _ _ _ _ _ => rfl)]
    rfl

theorem boid_pass_pursuit_ranges :
    pursuit_ranges (boid_pass E C P tree pv bv vx).trace = [] := by
  unfold pursuit_ranges
  rw [boid_pass_filterMap E C P tree pv bv vx Event.pursuit_range (fun _ => [])]
  · exact flatMap_nil_const _
  · intro i hi heap vertices b2 _
    rw [List.filterMap_append, List.filterMap_append,
      avoid_predators_filterMap_none E C P Event.pursuit_range (fun _ _ _ _ _ _ => rfl)]
    rfl

theorem boid_pass_avoid_ranges :
    avoid_ranges (boid_pass E C P tree pv bv vx).trace
      = List.replicate (bv.length * pv.length) P.prey_range := by
  unfold avoid_ranges
  rw [boid_pass_filterMap E C P tree pv bv vx Event.avoid_range
    (fun _ => List.replicate pv.length P.prey_range)]
  · exact flatMap_replicate _ _ _
  · intro i hi heap vertices b2 _
    rw [List.filterMap_append, List.filterMap_append, avoid_predators_ranges]
    simp [Event.avoid_range]

end boidtrace

section parts
variable (E : Externals) (C : Constants)

theorem build_tree_stage (bv : List Boid) (ev : Event E)
    (hev : ev ∈ (build_tree E C bv).trace) : code_stage ev = 0 := by
  rw [build_tree_trace] at hev
  simp only [List.mem_cons, List.mem_map] at hev
  rcases hev with h | ⟨i, -, h⟩
  · rw [h]; rfl
  · rw [← h]; rfl

theorem build_tree_filterMap {β : Type} (f : Event E → Option β)
    (h0 : ∀ capacity boundary, f (Event.tree_new capacity boundary) = none)
    (h1 : ∀ tree bv i, f (Event.tree_insert tree bv i) = none) (bv : List Boid) :
    (build_tree E C bv).trace.filterMap f = [] := by
  rw [List.filterMap_eq_nil_iff]
  intro ev hev
  rw [build_tree_trace] at hev
  simp only [List.mem_cons, List.mem_map] at hev
  rcases hev with h | ⟨i, -, h⟩
  · rw [h, h0]
  · rw [← h, h1]

theorem build_tree_calls (bv : List Boid) :
    (build_tree E C bv).trace.map Event.call
      = Call.tree_new :: (List.range bv.length).map Call.tree_insert := by
  rw [build_tree_trace]
  simp [Event.call, Function.comp_def]

theorem predator_pass_pursuit_ranges (pr : ℚ) (bv : List Boid) (pv : List Predator)
    (vx : List Vertex) :
    pursuit_ranges (predator_pass E C pr bv pv vx).trace = List.replicate pv.length pr := by
  unfold pursuit_ranges
  rw [predator_pass_filterMap E C pr bv Event.pursuit_range (fun _ => [pr]) pv vx
    (fun _ _ _ _ _ => rfl)]
  simpa using flatMap_replicate pv.length 1 pr

theorem predator_pass_filterMap_none {β : Type} (f : Event E → Option β)
    (h0 : ∀ i p dt r prey, f (Event.predator_update i p dt r prey) = none)
    (h1 : ∀ vertices q i size, f (Event.predator_vertex_update vertices q i size) = none)
    (pr : ℚ) (bv : List Boid) (pv : List Predator) (vx : List Vertex) :
    (predator_pass E C pr bv pv vx).trace.filterMap f = [] := by
  rw [predator_pass_filterMap E C pr bv f (fun _ => []) pv vx]
  · exact flatMap_nil_const _
  · intro i p vertices q size
    simp [List.filterMap_cons, h0, h1]

end parts

section ticktrace
variable (E : Externals) (C : Constants) (inp : TickInput) (s : Sim E)

theorem tick_predator_vector_length :
    (tick E C inp s).value.predator_vector.length
      = (populations E C s).predator_vector.length := by
  rw [(tick_parts E C inp s).2.2, List.length_map, predators_before_updates_length]

/-- A read-out of a tick that ignores the rebuild and the pointer pass reads the
predator loop, then the boid loop. -/
theorem tick_filterMap {β : Type} (f : Event E → Option β)
    (h0 : ∀ capacity boundary, f (Event.tree_new capacity boundary) = none)
    (h1 : ∀ tree bv i, f (Event.tree_insert tree bv i) = none)
    (hb : ∀ j b m r k, f (Event.pointer_repel_boid j b m r k) = none)
    (hp : ∀ j b m r k, f (Event.pointer_repel_predator j b m r k) = none) :
    (tick E C inp s).trace.filterMap f
      = (predator_pass E C
            (C.prey_to_predator_coeff * (update_from_panel C s.panel).prey_range)
            (boids_before_updates E C inp s) (predators_before_updates E C inp s)
            (populations E C s).predator_vertex).trace.filterMap f
        ++ (boid_pass E C (update_from_panel C s.panel)
              (tree_of E C (populations E C s).boid_vector
                (populations E C s).boid_vector.length)
              (tick E C inp s).value.predator_vector
              (boids_before_updates E C inp s)
              (populations E C s).boid_vertex).trace.filterMap f := by
  rw [(tick_parts E C inp s).1, List.filterMap_append, List.filterMap_append,
    List.filterMap_append, build_tree_filterMap E C f h0 h1,
    pointer_pass_filterMap E C inp f hb hp]
  rfl

theorem tick_boid_updates :
    boid_updates (tick E C inp s).trace
      = (List.range (boids_before_updates E C inp s).length).flatMap (fun i =>
          match (boids_before_updates E C inp s)[i]? with
          | none => []
          | some b =>
            [⟨i, b,
              E.tree_query
                (tree_of E C (populations E C s).boid_vector
                  (populations E C s).boid_vector.length)
                (update_from_panel C s.panel).range
                (in_place (boids_before_updates E C inp s) (tick E C inp s).value.boid_vector i)
                i,
              in_place (boids_before_updates E C inp s)
                (tick E C inp s).value.boid_vector i⟩]) := by
  have h := boid_pass_updates E C (update_from_panel C s.panel)
    (tree_of E C (populations E C s).boid_vector (populations E C s).boid_vector.length)
    (tick E C inp s).value.predator_vector (boids_before_updates E C inp s)
    (populations E C s).boid_vertex
  rw [← (tick_parts E C inp s).2.1] at h
  unfold boid_updates at h ⊢
  rw [tick_filterMap E C inp s _ (fun _ _ => rfl) (fun _ _ _ => rfl)
    (fun _ _ _ _ _ => rfl) (fun _ _ _ _ _ => rfl),
    predator_pass_filterMap_none E C _ (fun _ _ _ _ _ => rfl) (fun _ _ _ _ => rfl),
    List.nil_append]
  exact h

/-- A `Boid::update` call of a tick: its receiver, the vector it reads and the
pointers it is handed. -/
theorem tick_boid_update_mem (u : BoidUpdate) (hu : u ∈ boid_updates (tick E C inp s).trace) :
    u.boid_vector
        = in_place (boids_before_updates E C inp s) (tick E C inp s).value.boid_vector u.i ∧
    (boids_before_updates E C inp s)[u.i]? = some u.self ∧
    u.in_range
        = E.tree_query
            (tree_of E C (populations E C s).boid_vector
              (populations E C s).boid_vector.length)
            (update_from_panel C s.panel).range u.boid_vector u.i := by
  rw [tick_boid_updates] at hu
  obtain ⟨i, -, h⟩ := List.mem_flatMap.mp hu
  split at h
  · simp at h
  · rename_i b hb
    simp only [List.mem_singleton] at h
    subst h
    exact ⟨rfl, hb, rfl⟩

theorem tick_boid_update_indices :
    (boid_updates (tick E C inp s).trace).map (fun u => u.i)
      = List.range (boids_before_updates E C inp s).length := by
  rw [tick_boid_updates, List.map_flatMap]
  have : ∀ i ∈ List.range (boids_before_updates E C inp s).length,
      List.map (fun u : BoidUpdate => u.i)
        (match (boids_before_updates E C inp s)[i]? with
          | none => []
          | some b =>
            [⟨i, b,
              E.tree_query
                (tree_of E C (populations E C s).boid_vector
                  (populations E C s).boid_vector.length)
                (update_from_panel C s.panel).range
                (in_place (boids_before_updates E C inp s) (tick E C inp s).value.boid_vector i)
                i,
              in_place (boids_before_updates E C inp s)
                (tick E C inp s).value.boid_vector i⟩]) = [i] := by
    intro i hi
    rw [List.getElem?_eq_getElem (List.mem_range.mp hi)]
    rfl
  rw [List.flatMap_congr this]
  exact List.flatMap_singleton' _

/-- The boid that a tick leaves at index `i`. -/
theorem tick_final_boid (i : Nat) (b : Boid) (hb : (boids_before_updates E C inp s)[i]? = some b) :
    (tick E C inp s).value.boid_vector[i]?
      = some (boid_step_result E C (update_from_panel C s.panel)
          (tree_of E C (populations E C s).boid_vector (populations E C s).boid_vector.length)
          (tick E C inp s).value.predator_vector
          (in_place (boids_before_updates E C inp s) (tick E C inp s).value.boid_vector i)
          i b) := by
  have hi : i < (boids_before_updates E C inp s).length := by
    by_contra hcon
    rw [List.getElem?_eq_none (by omega)] at hb
    cases hb
  have hbi : (boids_before_updates E C inp s)[i] = b := by
    rw [List.getElem?_eq_getElem hi] at hb
    exact Option.some.inj hb
  have h := boid_pass_final E C (update_from_panel C s.panel)
    (tree_of E C (populations E C s).boid_vector (populations E C s).boid_vector.length)
    (tick E C inp s).value.predator_vector (boids_before_updates E C inp s)
    (populations E C s).boid_vertex i hi
  rw [← (tick_parts E C inp s).2.1, hbi] at h
  exact h

theorem tick_queried_trees :
    queried_trees (tick E C inp s).trace
      = List.replicate (populations E C s).boid_vector.length
          (tree_of E C (populations E C s).boid_vector
            (populations E C s).boid_vector.length) := by
  have h := boid_pass_queried_trees E C (update_from_panel C s.panel)
    (tree_of E C (populations E C s).boid_vector (populations E C s).boid_vector.length)
    (tick E C inp s).value.predator_vector (boids_before_updates E C inp s)
    (populations E C s).boid_vertex
  rw [boids_before_updates_length] at h
  unfold queried_trees at h ⊢
  rw [tick_filterMap E C inp s _ (fun _ _ => rfl) (fun _ _ _ => rfl)
    (fun _ _ _ _ _ => rfl) (fun _ _ _ _ _ => rfl),
    predator_pass_filterMap_none E C _ (fun _ _ _ _ _ => rfl) (fun _ _ _ _ => rfl),
    List.nil_append]
  exact h

theorem tick_pursuit_ranges :
    pursuit_ranges (tick E C inp s).trace
      = List.replicate (populations E C s).predator_vector.length
          (C.prey_to_predator_coeff * (update_from_panel C s.panel).prey_range) := by
  have h1 := predator_pass_pursuit_ranges E C
    (C.prey_to_predator_coeff * (update_from_panel C s.panel).prey_range)
    (boids_before_updates E C inp s) (predators_before_updates E C inp s)
    (populations E C s).predator_vertex
  have h2 := boid_pass_pursuit_ranges E C (update_from_panel C s.panel)
    (tree_of E C (populations E C s).boid_vector (populations E C s).boid_vector.length)
    (tick E C inp s).value.predator_vector (boids_before_updates E C inp s)
    (populations E C s).boid_vertex
  rw [predators_before_updates_length] at h1
  unfold pursuit_ranges at h1 h2 ⊢
  rw [tick_filterMap E C inp s _ (fun _ _ => rfl) (fun _ _ _ => rfl)
    (fun _ _ _ _ _ => rfl) (fun _ _ _ _ _ => rfl), h1, h2, List.append_nil]

theorem tick_avoid_ranges :
    avoid_ranges (tick E C inp s).trace
      = List.replicate
          ((populations E C s).boid_vector.length * (populations E C s).predator_vector.length)
          (update_from_panel C s.panel).prey_range := by
  have h := boid_pass_avoid_ranges E C (update_from_panel C s.panel)
    (tree_of E C (populations E C s).boid_vector (populations E C s).boid_vector.length)
    (tick E C inp s).value.predator_vector (boids_before_updates E C inp s)
    (populations E C s).boid_vertex
  rw [boids_before_updates_length, tick_predator_vector_length] at h
  unfold avoid_ranges at h ⊢
  rw [tick_filterMap E C inp s _ (fun _ _ => rfl) (fun _ _ _ => rfl)
    (fun _ _ _ _ _ => rfl) (fun _ _ _ _ _ => rfl),
    predator_pass_filterMap_none E C _ (fun _ _ _ _ _ => rfl) (fun _ _ _ _ => rfl),
    List.nil_append]
  exact h

end ticktrace

section order
variable (E : Externals) (C : Constants) (inp : TickInput) (s : Sim E)

theorem pairwise_stage_append (stage : Event E → Nat) (l₁ l₂ : List (Event E)) (a b : Nat)
    (hab : a ≤ b)
    (h1 : l₁.Pairwise (fun x y => stage x ≤ stage y)) (h1a : ∀ x ∈ l₁, stage x ≤ a)
    (h2 : ∀ x ∈ l₂, stage x = b) :
    (l₁ ++ l₂).Pairwise (fun x y => stage x ≤ stage y) ∧ ∀ x ∈ l₁ ++ l₂, stage x ≤ b := by
  refine ⟨List.pairwise_append.mpr ⟨h1, ?_, ?_⟩, ?_⟩
  · exact List.pairwise_of_forall_mem_list (fun x hx y hy => by rw [h2 x hx, h2 y hy])
  · intro x hx y hy
    rw [h2 y hy]
    exact le_trans (h1a x hx) hab
  · intro x hx
    rcases List.mem_append.mp hx with h | h
    · exact le_trans (h1a x h) hab
    · exact le_of_eq (h2 x h)

/-- The calls of a tick come in the order of the stages of `main.cpp`. -/
theorem tick_in_code_order : in_stage_order code_stage (tick E C inp s).trace := by
  unfold in_stage_order
  rw [(tick_parts E C inp s).1]
  have hA := build_tree_stage E C (populations E C s).boid_vector
  have hB := pointer_pass_stage E C inp (populations E C s).boid_vector
    (populations E C s).predator_vector
  have h0 : ([] : List (Event E)).Pairwise (fun x y => code_stage x ≤ code_stage y) ∧
      ∀ x ∈ ([] : List (Event E)), code_stage x ≤ 0 := ⟨List.Pairwise.nil, by simp⟩
  have hA' := pairwise_stage_append E code_stage [] _ 0 0 (le_refl _) h0.1 h0.2 hA
  rw [List.nil_append] at hA'
  have hB' := pairwise_stage_append E code_stage _ _ 0 1 (by omega) hA'.1 hA'.2 hB
  have hC := predator_pass_stage E C
    (C.prey_to_predator_coeff * (update_from_panel C s.panel).prey_range)
    (boids_before_updates E C inp s) (predators_before_updates E C inp s)
    (populations E C s).predator_vertex
  have hD := boid_pass_stage E C (update_from_panel C s.panel)
    (tree_of E C (populations E C s).boid_vector (populations E C s).boid_vector.length)
    (tick E C inp s).value.predator_vector (boids_before_updates E C inp s)
    (populations E C s).boid_vertex
  have hC' := pairwise_stage_append E code_stage _ _ 1 2 (by omega) hB'.1 hB'.2 hC
  exact (pairwise_stage_append E code_stage _ _ 2 3 (by omega) hC'.1 hC'.2 hD).1

theorem filter_stage_self (l : List (Event E)) (k : Nat) (h : ∀ ev ∈ l, code_stage ev = k) :
    l.filter (fun ev => code_stage ev = k) = l := by
  rw [List.filter_eq_self]
  intro ev hev
  simpa using h ev hev

theorem filter_stage_other (l : List (Event E)) (k j : Nat) (hkj : j ≠ k)
    (h : ∀ ev ∈ l, code_stage ev = j) :
    l.filter (fun ev => code_stage ev = k) = [] := by
  rw [List.filter_eq_nil_iff]
  intro ev hev
  simp [h ev hev, hkj]

theorem tick_stage_calls :
    stage_calls code_stage 0 (tick E C inp s).trace
      = Call.tree_new :: (List.range (populations E C s).boid_vector.length).map
          Call.tree_insert ∧
    stage_calls code_stage 2 (tick E C inp s).trace
      = (List.range (populations E C s).predator_vector.length).flatMap predator_calls ∧
    stage_calls code_stage 3 (tick E C inp s).trace
      = (List.range (populations E C s).boid_vector.length).flatMap
          (boid_calls (populations E C s).predator_vector.length) := by
  have hA := build_tree_stage E C (populations E C s).boid_vector
  have hB := pointer_pass_stage E C inp (populations E C s).boid_vector
    (populations E C s).predator_vector
  have hC := predator_pass_stage E C
    (C.prey_to_predator_coeff * (update_from_panel C s.panel).prey_range)
    (boids_before_updates E C inp s) (predators_before_updates E C inp s)
    (populations E C s).predator_vertex
  have hD := boid_pass_stage E C (update_from_panel C s.panel)
    (tree_of E C (populations E C s).boid_vector (populations E C s).boid_vector.length)
    (tick E C inp s).value.predator_vector (boids_before_updates E C inp s)
    (populations E C s).boid_vertex
  unfold stage_calls
  rw [(tick_parts E C inp s).1]
  simp only [List.filter_append]
  refine ⟨?_, ?_, ?_⟩
  · rw [filter_stage_self E _ 0 hA, filter_stage_other E _ 0 1 (by omega) hB,
      filter_stage_other E _ 0 2 (by omega) hC, filter_stage_other E _ 0 3 (by omega) hD]
    simp only [List.append_nil, build_tree_calls]
  · rw [filter_stage_other E _ 2 0 (by omega) hA, filter_stage_other E _ 2 1 (by omega) hB,
      filter_stage_self E _ 2 hC, filter_stage_other E _ 2 3 (by omega) hD]
    simp only [List.nil_append, List.append_nil, predator_pass_calls,
      predators_before_updates_length]
  · rw [filter_stage_other E _ 3 0 (by omega) hA, filter_stage_other E _ 3 1 (by omega) hB,
      filter_stage_other E _ 3 2 (by omega) hC, filter_stage_self E _ 3 hD]
    simp only [List.nil_append, boid_pass_calls, boids_before_updates_length,
      tick_predator_vector_length]

/-- A call of a tick belongs to the stage whose calls it is among. -/
theorem tick_event_stage (ev : Event E) (hev : ev ∈ (tick E C inp s).trace) :
    (code_stage ev = 0 ∧ ev ∈ (build_tree E C (populations E C s).boid_vector).trace) ∨
    (code_stage ev = 1 ∧ ev ∈ (pointer_pass E C inp (populations E C s).boid_vector
        (populations E C s).predator_vector).trace) ∨
    (code_stage ev = 2 ∧ ev ∈ (predator_pass E C
        (C.prey_to_predator_coeff * (update_from_panel C s.panel).prey_range)
        (boids_before_updates E C inp s) (predators_before_updates E C inp s)
        (populations E C s).predator_vertex).trace) ∨
    (code_stage ev = 3 ∧ ev ∈ (boid_pass E C (update_from_panel C s.panel)
        (tree_of E C (populations E C s).boid_vector (populations E C s).boid_vector.length)
        (tick E C inp s).value.predator_vector (boids_before_updates E C inp s)
        (populations E C s).boid_vertex).trace) := by
  rw [(tick_parts E C inp s).1] at hev
  simp only [List.mem_append] at hev
  rcases hev with ((h | h) | h) | h
  · exact Or.inl ⟨build_tree_stage E C _ ev h, h⟩
  · exact Or.inr (Or.inl ⟨pointer_pass_stage E C inp _ _ ev h, h⟩)
  · exact Or.inr (Or.inr (Or.inl ⟨predator_pass_stage E C _ _ _ _ ev h, h⟩))
  · exact Or.inr (Or.inr (Or.inr ⟨boid_pass_stage E C _ _ _ _ _ ev h, h⟩))

/-- Every `Predator::update` of a tick is handed the boids as the pointer pass
left them, and works on a predator as the pointer pass left it. -/
theorem tick_predator_update_event (ev : Event E) (hev : ev ∈ (tick E C inp s).trace)
    (i : Nat) (self : Predator) (dt r : ℚ) (prey : List Boid)
    (h : ev = Event.predator_update i self dt r prey) :
    prey = boids_before_updates E C inp s ∧
    (predators_before_updates E C inp s)[i]? = some self := by
  subst h
  rcases tick_event_stage E C inp s _ hev with ⟨h, -⟩ | ⟨h, -⟩ | ⟨-, h⟩ | ⟨h, -⟩
  · cases h
  · cases h
  · obtain ⟨j, p, hp, h1 | ⟨vertices, h1⟩⟩ := predator_pass_events E C _ _ _ _ _ h
    · cases h1
      exact ⟨rfl, hp⟩
    · cases h1
  · cases h

/-- Every repulsion of a boid from a predator is from the position of that
predator as the tick leaves it. -/
theorem tick_predator_avoid_event (ev : Event E) (hev : ev ∈ (tick E C inp s).trace)
    (i : Nat) (self : Boid) (p : Nat) (source : Point) (r k : ℚ)
    (h : ev = Event.predator_avoid i self p source r k) :
    ∃ q, (tick E C inp s).value.predator_vector[p]? = some q ∧ source = q.pos := by
  subst h
  rcases tick_event_stage E C inp s _ hev with ⟨h, -⟩ | ⟨h, -⟩ | ⟨h, -⟩ | ⟨-, h⟩
  · cases h
  · cases h
  · cases h
  · obtain ⟨j, hj, h1 | h1 | ⟨p1, q, self1, hq, h1⟩ | ⟨vertices, b2, h1⟩⟩ :=
      boid_pass_events E C _ _ _ _ _ _ h
    · cases h1
    · cases h1
    · cases h1
      exact ⟨q, hq, rfl⟩
    · cases h1

end order

theorem in_place_getElem?_lt (before after : List Boid) (i j : Nat)
    (hlen : after.length = before.length) (hj : j < i) :
    (in_place before after i)[j]? = after[j]? := by
  unfold in_place
  by_cases h : j < after.length
  · rw [List.getElem?_append_left (by rw [List.length_take]; omega), List.getElem?_take_of_lt hj]
  · have hl : (after.take i ++ before.drop i).length ≤ j := by
      rw [List.length_append, List.length_take, List.length_drop]
      omega
    rw [List.getElem?_eq_none hl, List.getElem?_eq_none (by omega)]

theorem in_place_getElem?_ge (before after : List Boid) (i j : Nat)
    (hlen : after.length = before.length) (hj : i ≤ j) :
    (in_place before after i)[j]? = before[j]? := by
  unfold in_place
  by_cases h : i ≤ after.length
  · rw [List.getElem?_append_right (by rw [List.length_take]; omega), List.length_take,
      List.getElem?_drop, Nat.min_eq_left h]
    congr 1
    omega
  · have hl : (after.take i ++ before.drop i).length ≤ j := by
      rw [List.length_append, List.length_take, List.length_drop]
      omega
    rw [List.getElem?_eq_none hl, List.getElem?_eq_none (by omega)]

section more
variable (E : Externals) (C : Constants) (inp : TickInput) (s : Sim E)

theorem tick_boid_vector_length :
    (tick E C inp s).value.boid_vector.length = (populations E C s).boid_vector.length := by
  rw [(tick_parts E C inp s).2.1]
  unfold boid_pass
  rw [boid_pass_upto_length, boids_before_updates_length]

/-- The first calls of a tick are the calls of the rebuild. -/
theorem tick_trace_take :
    (tick E C inp s).trace.take ((populations E C s).boid_vector.length + 1)
      = Event.tree_new C.cell_capacity (root_rectangle C)
        :: (List.range (populations E C s).boid_vector.length).map (fun i =>
            Event.tree_insert (tree_of E C (populations E C s).boid_vector i)
              (populations E C s).boid_vector i) := by
  have hlen : (build_tree E C (populations E C s).boid_vector).trace.length
      = (populations E C s).boid_vector.length + 1 := by
    rw [build_tree_trace]
    simp
  rw [(tick_parts E C inp s).1, List.append_assoc, List.append_assoc,
    List.take_append_eq_append_take, hlen, Nat.sub_self, List.take_zero, List.append_nil,
    List.take_of_length_le (le_of_eq hlen), build_tree_trace]

/-- No call after the rebuild is a call of the rebuild. -/
theorem tick_trace_drop (ev : Event E)
    (hev : ev ∈ (tick E C inp s).trace.drop ((populations E C s).boid_vector.length + 1)) :
    code_stage ev ≠ 0 := by
  have hlen : (build_tree E C (populations E C s).boid_vector).trace.length
      = (populations E C s).boid_vector.length + 1 := by
    rw [build_tree_trace]
    simp
  rw [(tick_parts E C inp s).1, List.append_assoc, List.append_assoc,
    List.drop_append_eq_append_drop, hlen, Nat.sub_self, List.drop_zero,
    List.drop_of_length_le (le_of_eq hlen), List.nil_append] at hev
  have hB := pointer_pass_stage E C inp (populations E C s).boid_vector
    (populations E C s).predator_vector
  have hC := predator_pass_stage E C
    (C.prey_to_predator_coeff * (update_from_panel C s.panel).prey_range)
    (boids_before_updates E C inp s) (predators_before_updates E C inp s)
    (populations E C s).predator_vertex
  have hD := boid_pass_stage E C (update_from_panel C s.panel)
    (tree_of E C (populations E C s).boid_vector (populations E C s).boid_vector.length)
    (tick E C inp s).value.predator_vector (boids_before_updates E C inp s)
    (populations E C s).boid_vertex
  simp only [List.mem_append] at hev
  rcases hev with h | h | h
  · rw [hB ev h]; omega
  · rw [hC ev h]; omega
  · rw [hD ev h]; omega

/-- A call of the pointer pass on a boid works on the boid as the population
refresh left it, which is within `repel_range` of the mouse position. -/
theorem tick_pointer_boid_event (ev : Event E) (hev : ev ∈ (tick E C inp s).trace)
    (i : Nat) (self : Boid) (source : Point) (r k : ℚ)
    (h : ev = Event.pointer_repel_boid i self source r k) :
    inp.is_mouse_pressed = true ∧
    (populations E C s).boid_vector[i]? = some self ∧
    source = inp.mouse_position ∧ r = C.repel_range ∧ k = C.repel_coefficent ∧
    E.distance (E.point_sub self.pos inp.mouse_position) < C.repel_range := by
  subst h
  rcases tick_event_stage E C inp s _ hev with ⟨h, -⟩ | ⟨-, h⟩ | ⟨h, -⟩ | ⟨h, -⟩
  · cases h
  · unfold pointer_pass at h
    split at h
    · rename_i hp
      simp only [traced_bind_trace, traced_pure_trace, List.append_nil, List.mem_append] at h
      rcases h with h | h
      · obtain ⟨j, b, h1, h2, h3⟩ := pointer_pass_boids_events E C _ _ _ _ h
        cases h1
        rw [Nat.zero_add]
        exact ⟨hp, h2, rfl, rfl, rfl, h3⟩
      · obtain ⟨j, b, h1, -, -⟩ := pointer_pass_predators_events E C _ _ _ _ h
        cases h1
    · simp [traced_pure_trace] at h
  · cases h
  · cases h

/-- A call of the pointer pass on a predator works on the predator as the
population refresh left it, which is within `repel_range` of the mouse
position. -/
theorem tick_pointer_predator_event (ev : Event E) (hev : ev ∈ (tick E C inp s).trace)
    (i : Nat) (self : Predator) (source : Point) (r k : ℚ)
    (h : ev = Event.pointer_repel_predator i self source r k) :
    inp.is_mouse_pressed = true ∧
    (populations E C s).predator_vector[i]? = some self ∧
    source = inp.mouse_position ∧ r = C.repel_range ∧ k = C.repel_coefficent ∧
    E.distance (E.point_sub self.pos inp.mouse_position) < C.repel_range := by
  subst h
  rcases tick_event_stage E C inp s _ hev with ⟨h, -⟩ | ⟨-, h⟩ | ⟨h, -⟩ | ⟨h, -⟩
  · cases h
  · unfold pointer_pass at h
    split at h
    · rename_i hp
      simp only [traced_bind_trace, traced_pure_trace, List.append_nil, List.mem_append] at h
      rcases h with h | h
      · obtain ⟨j, b, h1, -, -⟩ := pointer_pass_boids_events E C _ _ _ _ h
        cases h1
      · obtain ⟨j, b, h1, h2, h3⟩ := pointer_pass_predators_events E C _ _ _ _ h
        cases h1
        rw [Nat.zero_add]
        exact ⟨hp, h2, rfl, rfl, rfl, h3⟩
    · simp [traced_pure_trace] at h
  · cases h
  · cases h

end more

section pointer
variable (E : Externals) (C : Constants)

theorem pointer_pass_boids_value (m : Point) (l : List Boid) (k : Nat) :
    (pointer_pass_boids E C m k l).value
      = l.map (fun b =>
          if E.distance (E.point_sub b.pos m) < C.repel_range then
            E.boid_repel b m C.repel_range C.repel_coefficent
          else b) := by
  induction l generalizing k with
  | nil => rfl
  | cons a l ih =>
    simp only [pointer_pass_boids, List.map_cons]
    split
    · simp only [traced_bind_value, traced_pure_value, invoke_value, ih]
      rfl
    · simp only [traced_bind_value, traced_pure_value, ih]

theorem pointer_pass_predators_value (m : Point) (l : List Predator) (k : Nat) :
    (pointer_pass_predators E C m k l).value
      = l.map (fun p =>
          if E.distance (E.point_sub p.pos m) < C.repel_range then
            E.predator_repel p m C.repel_range C.repel_coefficent
          else p) := by
  induction l generalizing k with
  | nil => rfl
  | cons a l ih =>
    simp only [pointer_pass_predators, List.map_cons]
    split
    · simp only [traced_bind_value, traced_pure_value, invoke_value, ih]
      rfl
    · simp only [traced_bind_value, traced_pure_value, ih]

variable (inp : TickInput) (s : Sim E)

/-- The boids after the pointer pass: each boid within `repel_range` of the
mouse position, the button being down, repelled from it, every other boid as the
population refresh left it. -/
theorem boids_before_updates_eq :
    boids_before_updates E C inp s
      = (populations E C s).boid_vector.map (fun b =>
          if inp.is_mouse_pressed = true
              ∧ E.distance (E.point_sub b.pos inp.mouse_position) < C.repel_range then
            E.boid_repel b inp.mouse_position C.repel_range C.repel_coefficent
          else b) := by
  unfold boids_before_updates pointer_pass
  split
  · rename_i hp
    simp only [traced_bind_value, traced_pure_value, pointer_pass_boids_value, hp, true_and]
  · rename_i hp
    simp only [traced_pure_value, hp, false_and, if_false, List.map_id', Bool.false_eq_true]

/-- The predators after the pointer pass. -/
theorem predators_before_updates_eq :
    predators_before_updates E C inp s
      = (populations E C s).predator_vector.map (fun p =>
          if inp.is_mouse_pressed = true
              ∧ E.distance (E.point_sub p.pos inp.mouse_position) < C.repel_range then
            E.predator_repel p inp.mouse_position C.repel_range C.repel_coefficent
          else p) := by
  unfold predators_before_updates pointer_pass
  split
  · rename_i hp
    simp only [traced_bind_value, traced_pure_value, pointer_pass_predators_value, hp,
      true_and]
  · rename_i hp
    simp only [traced_pure_value, hp, false_and, if_false, List.map_id', Bool.false_eq_true]

end pointer

/-! ## Theorems: the pointer-repulsion pass -/

/-- C4: in every tick the pointer pass calls `repel` on no boid and no predator
whose distance to the mouse position is not less than `repel_range`, and leaves
that agent as it was; with the mouse button up it calls `repel` on no agent and
leaves both vectors as they were. -/
theorem pointer_pass_spares_out_of_range (E : Externals) (C : Constants) (inp : TickInput)
    (s : Sim E) :
    (∀ i b, (populations E C s).boid_vector[i]? = some b →
      ¬ E.distance (E.point_sub b.pos inp.mouse_position) < C.repel_range →
      (boids_before_updates E C inp s)[i]? = some b ∧
      ∀ ev ∈ (tick E C inp s).trace, Event.call ev ≠ Call.pointer_repel_boid i) ∧
    (∀ i p, (populations E C s).predator_vector[i]? = some p →
      ¬ E.distance (E.point_sub p.pos inp.mouse_position) < C.repel_range →
      (predators_before_updates E C inp s)[i]? = some p ∧
      ∀ ev ∈ (tick E C inp s).trace, Event.call ev ≠ Call.pointer_repel_predator i) ∧
    (inp.is_mouse_pressed = false →
      boids_before_updates E C inp s = (populations E C s).boid_vector ∧
      predators_before_updates E C inp s = (populations E C s).predator_vector ∧
      ∀ ev ∈ (tick E C inp s).trace, code_stage ev ≠ 1) := by
  refine ⟨?_, ?_, ?_⟩
  · intro i b hb hfar
    refine ⟨?_, ?_⟩
    · rw [boids_before_updates_eq, List.getElem?_map, hb, Option.map_some', if_neg]
      exact fun h => hfar h.2
    · intro ev hev hcall
      cases ev <;> simp only [Event.call, reduceCtorEq] at hcall
      rename_i j self source r k
      cases hcall
      obtain ⟨-, h2, -, -, -, h3⟩ := tick_pointer_boid_event E C inp s _ hev _ _ _ _ _ rfl
      rw [hb] at h2
      cases h2
      exact hfar h3
  · intro i p hp hfar
    refine ⟨?_, ?_⟩
    · rw [predators_before_updates_eq, List.getElem?_map, hp, Option.map_some', if_neg]
      exact fun h => hfar h.2
    · intro ev hev hcall
      cases ev <;> simp only [Event.call, reduceCtorEq] at hcall
      rename_i j self source r k
      cases hcall
      obtain ⟨-, h2, -, -, -, h3⟩ := tick_pointer_predator_event E C inp s _ hev _ _ _ _ _ rfl
      rw [hp] at h2
      cases h2
      exact hfar h3
  · intro hup
    refine ⟨?_, ?_, ?_⟩
    · rw [boids_before_updates_eq]
      simp [hup]
    · rw [predators_before_updates_eq]
      simp [hup]
    · intro ev hev hstage
      cases ev <;> simp only [code_stage] at hstage <;> try omega
      · obtain ⟨h1, -⟩ := tick_pointer_boid_event E C inp s _ hev _ _ _ _ _ rfl
        rw [hup] at h1
        cases h1
      · obtain ⟨h1, -⟩ := tick_pointer_predator_event E C inp s _ hev _ _ _ _ _ rfl
        rw [hup] at h1
        cases h1

/-- C4, at a concrete input: with the mouse button down at (300, 250), the first
boid of `sample_sim`, 150 away, comes out of the pointer pass unchanged. -/
theorem pointer_pass_spares_out_of_range_witness :
    (boids_before_updates sample_externals sample_constants sample_input_far sample_sim)[0]?
      = some ⟨⟨300, 400⟩, ⟨10, 0⟩⟩ :=
  ((pointer_pass_spares_out_of_range sample_externals sample_constants sample_input_far
    sample_sim).1 0 ⟨⟨300, 400⟩, ⟨10, 0⟩⟩ (by decide!) (by decide!)).1

/-! ## Theorems: one tick of the SFML loop -/

/-- C1 fails as stated: in a tick from `cohesive_sim`, mouse button up, the
`Boid::update` of boid 1 is handed a pointer to boid 0 in a vector that holds
boid 0 at (330, 400) with velocity (30, 0), where its own update of this tick
has put it, and not at (300, 400) with velocity (10, 0), where it was before any
update of the tick. The tick leaves boid 1 at (330, 400) with velocity (10, 0);
the same iteration on the vector from before the updates would leave it at
(300, 400) with velocity (-20, 0). -/
theorem boid_update_reads_updated_neighbour :
    boids_before_updates sample_externals sample_constants sample_input_idle cohesive_sim
      = [⟨⟨300, 400⟩, ⟨10, 0⟩⟩, ⟨⟨320, 400⟩, ⟨0, 0⟩⟩] ∧
    boid_updates (tick sample_externals sample_constants sample_input_idle cohesive_sim).trace
      = [⟨0, ⟨⟨300, 400⟩, ⟨10, 0⟩⟩, [1], [⟨⟨300, 400⟩, ⟨10, 0⟩⟩, ⟨⟨320, 400⟩, ⟨0, 0⟩⟩]⟩,
         ⟨1, ⟨⟨320, 400⟩, ⟨0, 0⟩⟩, [0], [⟨⟨330, 400⟩, ⟨30, 0⟩⟩, ⟨⟨320, 400⟩, ⟨0, 0⟩⟩]⟩] ∧
    ¬ reads_snapshot
      (boids_before_updates sample_externals sample_constants sample_input_idle cohesive_sim)
      (boid_updates
        (tick sample_externals sample_constants sample_input_idle cohesive_sim).trace) ∧
    (tick sample_externals sample_constants sample_input_idle cohesive_sim).value.boid_vector
      = [⟨⟨330, 400⟩, ⟨30, 0⟩⟩, ⟨⟨330, 400⟩, ⟨10, 0⟩⟩] ∧
    boid_step_result sample_externals sample_constants
        (update_from_panel sample_constants cohesive_sim.panel)
        (tree_of sample_externals sample_constants
          (populations sample_externals sample_constants cohesive_sim).boid_vector 2)
        (tick sample_externals sample_constants sample_input_idle
          cohesive_sim).value.predator_vector
        (boids_before_updates sample_externals sample_constants sample_input_idle cohesive_sim)
        1 ⟨⟨320, 400⟩, ⟨0, 0⟩⟩
      = ⟨⟨300, 400⟩, ⟨-20, 0⟩⟩ := by
  decide!

/-- C1, amended: in every tick there is one `Boid::update` call per boid, in
vector order; the call on boid `i` works on the boid as the pointer pass left
it, is handed the pointers that the query of this tick's tree returns on the
vector as the call finds it, and reads through them a vector that holds every
boid of smaller index as the tick leaves it (its own update and repulsion of
this tick applied) and every other boid as it was before the first boid update
of the tick; the tick leaves boid `i` as that iteration makes it. -/
theorem boid_updates_read_in_place (E : Externals) (C : Constants) (inp : TickInput)
    (s : Sim E) :
    (boid_updates (tick E C inp s).trace).map (fun u => u.i)
      = List.range (populations E C s).boid_vector.length ∧
    (∀ u ∈ boid_updates (tick E C inp s).trace,
      (boids_before_updates E C inp s)[u.i]? = some u.self ∧
      u.in_range
        = E.tree_query
            (tree_of E C (populations E C s).boid_vector
              (populations E C s).boid_vector.length)
            (update_from_panel C s.panel).range u.boid_vector u.i ∧
      u.boid_vector
        = in_place (boids_before_updates E C inp s) (tick E C inp s).value.boid_vector u.i ∧
      (∀ j, j < u.i → u.boid_vector[j]? = (tick E C inp s).value.boid_vector[j]?) ∧
      (∀ j, u.i ≤ j → u.boid_vector[j]? = (boids_before_updates E C inp s)[j]?)) ∧
    (∀ i b, (boids_before_updates E C inp s)[i]? = some b →
      (tick E C inp s).value.boid_vector[i]?
        = some (boid_step_result E C (update_from_panel C s.panel)
            (tree_of E C (populations E C s).boid_vector
              (populations E C s).boid_vector.length)
            (tick E C inp s).value.predator_vector
            (in_place (boids_before_updates E C inp s) (tick E C inp s).value.boid_vector i)
            i b)) := by
  have hlen : (tick E C inp s).value.boid_vector.length
      = (boids_before_updates E C inp s).length := by
    rw [tick_boid_vector_length, boids_before_updates_length]
  refine ⟨?_, ?_, ?_⟩
  · rw [tick_boid_update_indices, boids_before_updates_length]
  · intro u hu
    obtain ⟨h1, h2, h3⟩ := tick_boid_update_mem E C inp s u hu
    refine ⟨h2, h3, h1, ?_, ?_⟩
    · intro j hj
      rw [h1]
      exact in_place_getElem?_lt _ _ _ _ hlen hj
    · intro j hj
      rw [h1]
      exact in_place_getElem?_ge _ _ _ _ hlen hj
  · exact tick_final_boid E C inp s

/-- C1, amended, at a concrete input: the tick from `cohesive_sim` leaves boid 1
as the iteration on the vector with boid 0 already updated makes it. -/
theorem boid_updates_read_in_place_witness :
    (tick sample_externals sample_constants sample_input_idle cohesive_sim).value.boid_vector[1]?
      = some (boid_step_result sample_externals sample_constants
          (update_from_panel sample_constants cohesive_sim.panel)
          (tree_of sample_externals sample_constants
            (populations sample_externals sample_constants cohesive_sim).boid_vector
            (populations sample_externals sample_constants cohesive_sim).boid_vector.length)
          (tick sample_externals sample_constants sample_input_idle
            cohesive_sim).value.predator_vector
          (in_place
            (boids_before_updates sample_externals sample_constants sample_input_idle
              cohesive_sim)
            (tick sample_externals sample_constants sample_input_idle
              cohesive_sim).value.boid_vector 1)
          1 ⟨⟨320, 400⟩, ⟨0, 0⟩⟩) :=
  (boid_updates_read_in_place sample_externals sample_constants sample_input_idle
    cohesive_sim).2.2 1 ⟨⟨320, 400⟩, ⟨0, 0⟩⟩ (by decide!)

/-- C2: the first calls of every tick are the construction of a new tree over
the root rectangle and the inserts of all boids in vector order, each insert on
the tree of the inserts before it; no later call of the tick constructs a tree or
inserts; every `tree.query` of the tick runs on the tree obtained by inserting
the boids, in vector order, into a new tree over the root rectangle, and the
pointers handed to each `Boid::update` are what the query of that tree returns;
the tree is the same for any two ticks that start the rebuild with the same boid
vector, whatever came before them. -/
theorem queries_run_on_tree_built_this_tick (E : Externals) (C : Constants)
    (inp : TickInput) (s : Sim E) :
    (tick E C inp s).trace.take ((populations E C s).boid_vector.length + 1)
      = Event.tree_new C.cell_capacity (root_rectangle C)
        :: (List.range (populations E C s).boid_vector.length).map (fun i =>
            Event.tree_insert (tree_of E C (populations E C s).boid_vector i)
              (populations E C s).boid_vector i) ∧
    (∀ ev ∈ (tick E C inp s).trace.drop ((populations E C s).boid_vector.length + 1),
      Event.call ev ≠ Call.tree_new ∧ ∀ i, Event.call ev ≠ Call.tree_insert i) ∧
    queried_trees (tick E C inp s).trace
      = List.replicate (populations E C s).boid_vector.length
          ((List.range (populations E C s).boid_vector.length).foldl
            (fun t i => E.tree_insert t (populations E C s).boid_vector i)
            (E.tree_new C.cell_capacity (root_rectangle C))) ∧
    (∀ u ∈ boid_updates (tick E C inp s).trace,
      u.in_range
        = E.tree_query
            ((List.range (populations E C s).boid_vector.length).foldl
              (fun t i => E.tree_insert t (populations E C s).boid_vector i)
              (E.tree_new C.cell_capacity (root_rectangle C)))
            (update_from_panel C s.panel).range u.boid_vector u.i) ∧
    (∀ (inp1 : TickInput) (s1 : Sim E),
      (populations E C s1).boid_vector = (populations E C s).boid_vector →
      queried_trees (tick E C inp1 s1).trace = queried_trees (tick E C inp s).trace) := by
  refine ⟨tick_trace_take E C inp s, ?_, ?_, ?_, ?_⟩
  · intro ev hev
    have h := tick_trace_drop E C inp s ev hev
    constructor
    · intro hc
      cases ev <;> simp only [Event.call, reduceCtorEq] at hc
      exact h rfl
    · intro i hc
      cases ev <;> simp only [Event.call, reduceCtorEq] at hc
      exact h rfl
  · exact tick_queried_trees E C inp s
  · intro u hu
    exact (tick_boid_update_mem E C inp s u hu).2.2
  · intro inp1 s1 h
    rw [tick_queried_trees, tick_queried_trees, h]

/-- C2, at a concrete input: both queries of the tick from `hunting_sim` with the
mouse button down run on the tree that holds boid 0 and boid 1. -/
theorem queries_run_on_tree_built_this_tick_witness :
    queried_trees (tick sample_externals sample_constants sample_input_pressed hunting_sim).trace
      = List.replicate 2
          ({ capacity := 4, region := root_rectangle sample_constants, held := [0, 1] } :
            SpecTree) :=
  (queries_run_on_tree_built_this_tick sample_externals sample_constants sample_input_pressed
    hunting_sim).2.2.1.trans (by decide!)

/-- C3 fails as stated: in the tick from `hunting_sim` with the mouse button down
at (240, 400), both pointer repulsions are applied before any update and the
predator is updated before any boid is queried or updated, so the calls are not
in the order of the specification. The `Predator::update` call is handed the
boids as the pointer pass left them, at (300, 400) and (320, 400), and the tick
then leaves the boids at (331, 400) and (332, 400): the predator ends at
(310, 400), where its update on the boids before their updates puts it, and not
where its update on the updated boids would put it. -/
theorem tick_breaks_spec_order :
    (tick sample_externals sample_constants sample_input_pressed hunting_sim).trace.map
        Event.call
      = [Call.tree_new, Call.tree_insert 0, Call.tree_insert 1,
         Call.pointer_repel_boid 0, Call.pointer_repel_boid 1,
         Call.predator_update 0, Call.predator_vertex_update 0,
         Call.tree_query 0, Call.boid_update 0, Call.predator_avoid 0 0,
         Call.boid_vertex_update 0,
         Call.tree_query 1, Call.boid_update 1, Call.predator_avoid 1 0,
         Call.boid_vertex_update 1] ∧
    ¬ in_stage_order spec_stage
        (tick sample_externals sample_constants sample_input_pressed hunting_sim).trace ∧
    prey_handed (tick sample_externals sample_constants sample_input_pressed hunting_sim).trace
      = [[⟨⟨300, 400⟩, ⟨11, 0⟩⟩, ⟨⟨320, 400⟩, ⟨1, 0⟩⟩]] ∧
    (tick sample_externals sample_constants sample_input_pressed hunting_sim).value.boid_vector
      = [⟨⟨331, 400⟩, ⟨32, 0⟩⟩, ⟨⟨332, 400⟩, ⟨13, 0⟩⟩] ∧
    (tick sample_externals sample_constants sample_input_pressed
        hunting_sim).value.predator_vector
      = [⟨⟨310, 400⟩, ⟨-90, 0⟩⟩] ∧
    sample_externals.predator_update ⟨⟨400, 400⟩, ⟨0, 0⟩⟩ 1 200
        [⟨⟨300, 400⟩, ⟨11, 0⟩⟩, ⟨⟨320, 400⟩, ⟨1, 0⟩⟩]
      = ⟨⟨310, 400⟩, ⟨-90, 0⟩⟩ ∧
    sample_externals.predator_update ⟨⟨400, 400⟩, ⟨0, 0⟩⟩ 1 200
        [⟨⟨331, 400⟩, ⟨32, 0⟩⟩, ⟨⟨332, 400⟩, ⟨13, 0⟩⟩]
      = ⟨⟨663 / 2, 400⟩, ⟨-137 / 2, 0⟩⟩ := by
  decide!

/-- C3, amended: every tick runs its stages in the order index rebuild, pointer
repulsion, predator loop, boid loop. The calls of the tick come in that order;
the rebuild is the construction and one insert per boid in vector order, the
predator loop an update and a vertex update per predator, the boid loop for each
boid its query, its update, its repulsion from every predator and its vertex
update. The pointer repulsion works on the agents as the population refresh left
them; every `Predator::update` works on a predator and is handed the boids as
the pointer pass left them, before any boid update; every repulsion of a boid
from a predator is from the position of that predator as its update left it, and
follows the boid's own update in the same iteration. -/
theorem tick_runs_stages_in_code_order (E : Externals) (C : Constants) (inp : TickInput)
    (s : Sim E) :
    in_stage_order code_stage (tick E C inp s).trace ∧
    stage_calls code_stage 0 (tick E C inp s).trace
      = Call.tree_new :: (List.range (populations E C s).boid_vector.length).map
          Call.tree_insert ∧
    stage_calls code_stage 2 (tick E C inp s).trace
      = (List.range (populations E C s).predator_vector.length).flatMap predator_calls ∧
    stage_calls code_stage 3 (tick E C inp s).trace
      = (List.range (populations E C s).boid_vector.length).flatMap
          (boid_calls (populations E C s).predator_vector.length) ∧
    (∀ ev ∈ (tick E C inp s).trace, ∀ i self source r k,
      (ev = Event.pointer_repel_boid i self source r k →
        (populations E C s).boid_vector[i]? = some self) ∧
      (ev = Event.pointer_repel_predator i self source r k →
        (populations E C s).predator_vector[i]? = some self)) ∧
    boids_before_updates E C inp s
      = (populations E C s).boid_vector.map (fun b =>
          if inp.is_mouse_pressed = true
              ∧ E.distance (E.point_sub b.pos inp.mouse_position) < C.repel_range then
            E.boid_repel b inp.mouse_position C.repel_range C.repel_coefficent
          else b) ∧
    predators_before_updates E C inp s
      = (populations E C s).predator_vector.map (fun p =>
          if inp.is_mouse_pressed = true
              ∧ E.distance (E.point_sub p.pos inp.mouse_position) < C.repel_range then
            E.predator_repel p inp.mouse_position C.repel_range C.repel_coefficent
          else p) ∧
    (∀ ev ∈ (tick E C inp s).trace, ∀ i self dt r prey,
      ev = Event.predator_update i self dt r prey →
        prey = boids_before_updates E C inp s ∧
        (predators_before_updates E C inp s)[i]? = some self) ∧
    (tick E C inp s).value.predator_vector
      = (predators_before_updates E C inp s).map (fun p =>
          E.predator_update p C.delta_t_predator
            (C.prey_to_predator_coeff * (update_from_panel C s.panel).prey_range)
            (boids_before_updates E C inp s)) ∧
    (∀ ev ∈ (tick E C inp s).trace, ∀ i self p source r k,
      ev = Event.predator_avoid i self p source r k →
        ∃ q, (tick E C inp s).value.predator_vector[p]? = some q ∧ source = q.pos) ∧
    (∀ i b, (boids_before_updates E C inp s)[i]? = some b →
      (tick E C inp s).value.boid_vector[i]?
        = some (boid_step_result E C (update_from_panel C s.panel)
            (tree_of E C (populations E C s).boid_vector
              (populations E C s).boid_vector.length)
            (tick E C inp s).value.predator_vector
            (in_place (boids_before_updates E C inp s) (tick E C inp s).value.boid_vector i)
            i b)) := by
  refine ⟨tick_in_code_order E C inp s, (tick_stage_calls E C inp s).1,
    (tick_stage_calls E C inp s).2.1, (tick_stage_calls E C inp s).2.2, ?_,
    boids_before_updates_eq E C inp s, predators_before_updates_eq E C inp s, ?_,
    (tick_parts E C inp s).2.2, ?_, tick_final_boid E C inp s⟩
  · intro ev hev i self source r k
    exact ⟨fun h => (tick_pointer_boid_event E C inp s ev hev i self source r k h).2.1,
      fun h => (tick_pointer_predator_event E C inp s ev hev i self source r k h).2.1⟩
  · intro ev hev i self dt r prey h
    exact tick_predator_update_event E C inp s ev hev i self dt r prey h
  · intro ev hev i self p source r k h
    exact tick_predator_avoid_event E C inp s ev hev i self p source r k h

/-- C3, amended, at a concrete input: the tick from `hunting_sim` with the mouse
button down leaves the predator as its update on the boids from before their
updates makes it. -/
theorem tick_runs_stages_in_code_order_witness :
    (tick sample_externals sample_constants sample_input_pressed
        hunting_sim).value.predator_vector
      = [sample_externals.predator_update ⟨⟨400, 400⟩, ⟨0, 0⟩⟩ 1 200
          [⟨⟨300, 400⟩, ⟨11, 0⟩⟩, ⟨⟨320, 400⟩, ⟨1, 0⟩⟩]] :=
  (tick_runs_stages_in_code_order sample_externals sample_constants sample_input_pressed
    hunting_sim).2.2.2.2.2.2.2.2.1.trans (by decide!)

/-- C5: in every tick each `Predator::update` call is handed the pursuit range
`prey_to_predator_coeff * prey_range` and each `repel` call of a boid against a
predator the range `prey_range`, for the `prey_range` that `update_from_panel`
produces from the panel of that tick; the tick leaves every predator as the
update with that pursuit range makes it and every boid as the repulsions with
that `prey_range`, applied to the updated boid, make it. -/
theorem predators_pursue_at_scaled_prey_range (E : Externals) (C : Constants)
    (inp : TickInput) (s : Sim E) :
    pursuit_ranges (tick E C inp s).trace
      = List.replicate (populations E C s).predator_vector.length
          (C.prey_to_predator_coeff * (update_from_panel C s.panel).prey_range) ∧
    avoid_ranges (tick E C inp s).trace
      = List.replicate
          ((populations E C s).boid_vector.length * (populations E C s).predator_vector.length)
          (update_from_panel C s.panel).prey_range ∧
    (tick E C inp s).value.predator_vector
      = (predators_before_updates E C inp s).map (fun p =>
          E.predator_update p C.delta_t_predator
            (C.prey_to_predator_coeff * (update_from_panel C s.panel).prey_range)
            (boids_before_updates E C inp s)) ∧
    (∀ i b, (boids_before_updates E C inp s)[i]? = some b →
      (tick E C inp s).value.boid_vector[i]?
        = some ((tick E C inp s).value.predator_vector.foldl
            (fun x predator =>
              E.boid_repel x predator.pos (update_from_panel C s.panel).prey_range
                C.predator_avoidance_coeff)
            (E.boid_update b C.delta_t_boid
              (deref
                (in_place (boids_before_updates E C inp s)
                  (tick E C inp s).value.boid_vector i)
                (E.tree_query
                  (tree_of E C (populations E C s).boid_vector
                    (populations E C s).boid_vector.length)
                  (update_from_panel C s.panel).range
                  (in_place (boids_before_updates E C inp s)
                    (tick E C inp s).value.boid_vector i)
                  i))
              (update_from_panel C s.panel).separation_range
              (update_from_panel C s.panel).separation_coefficent
              (update_from_panel C s.panel).cohesion_coefficent
              (update_from_panel C s.panel).alignment_coefficent))) := by
  refine ⟨tick_pursuit_ranges E C inp s, tick_avoid_ranges E C inp s,
    (tick_parts E C inp s).2.2, ?_⟩
  intro i b hb
  exact tick_final_boid E C inp s i b hb

/-- C5, at a concrete input: with the prey-range slider at 10 the one
`Predator::update` call of the tick from `hunting_sim` is handed the pursuit
range 200, twice the `prey_range` of 100. -/
theorem predators_pursue_at_scaled_prey_range_witness :
    pursuit_ranges (tick sample_externals sample_constants sample_input_pressed hunting_sim).trace
      = [200] ∧
    avoid_ranges (tick sample_externals sample_constants sample_input_pressed hunting_sim).trace
      = [100, 100] :=
  ⟨(predators_pursue_at_scaled_prey_range sample_externals sample_constants
      sample_input_pressed hunting_sim).1.trans (by decide!),
    (predators_pursue_at_scaled_prey_range sample_externals sample_constants
      sample_input_pressed hunting_sim).2.1.trans (by decide!)⟩

end boids
